import Mathlib

/-!
# GLprimer (TNM046 Lab 3): the 4x4 matrix helpers and the render loop

A shallow embedding of `src/Lab3/GLprimer/GLprimer.cpp`.

* `std::array<float, 16>` is `Mat4 α = Fin 16 → α`. The definitions are generic in
  the entry type `α` and use only its `+`, `*`, unary `-`, `0` and `1`, in the
  order of the source. They are read at two kinds of entry type: `F32`, a model of
  IEEE 754 binary32 (what `float` is), and exact number types (any commutative
  ring; `ℝ` where `cos` and `sin` are the real functions).
* `cos` and `sin` of `<cmath>` are not part of the repository and are taken as
  parameters of the rotation constructors.
* `main` is embedded as a function from a scripted window / shader collaborator
  (`Mock`) to the list of calls it makes (`Call`).
-/

namespace GLprimer

/-! ## Matrix helpers -/

/-- A `std::array<float, 16>`: sixteen entries, addressed by index `0..15`. -/
abbrev Mat4 (α : Type) := Fin 16 → α

/-- `mat4mult` (GLprimer.cpp 75-99). -/
def mat4mult {α : Type} [Add α] [Mul α] (m1 m2 : Mat4 α) : Mat4 α :=
  ![m1 0 * m2 0 + m1 4 * m2 1 + m1 8 * m2 2 + m1 12 * m2 3,
    m1 1 * m2 0 + m1 5 * m2 1 + m1 9 * m2 2 + m1 13 * m2 3,
    m1 2 * m2 0 + m1 6 * m2 1 + m1 10 * m2 2 + m1 14 * m2 3,
    m1 3 * m2 0 + m1 7 * m2 1 + m1 11 * m2 2 + m1 15 * m2 3,

    m1 0 * m2 4 + m1 4 * m2 5 + m1 8 * m2 6 + m1 12 * m2 7,
    m1 1 * m2 4 + m1 5 * m2 5 + m1 9 * m2 6 + m1 13 * m2 7,
    m1 2 * m2 4 + m1 6 * m2 5 + m1 10 * m2 6 + m1 14 * m2 7,
    m1 3 * m2 4 + m1 7 * m2 5 + m1 11 * m2 6 + m1 15 * m2 7,

    m1 0 * m2 8 + m1 4 * m2 9 + m1 8 * m2 10 + m1 12 * m2 11,
    m1 1 * m2 8 + m1 5 * m2 9 + m1 9 * m2 10 + m1 13 * m2 11,
    m1 2 * m2 8 + m1 6 * m2 9 + m1 10 * m2 10 + m1 14 * m2 11,
    m1 3 * m2 8 + m1 7 * m2 9 + m1 11 * m2 10 + m1 15 * m2 11,

    m1 0 * m2 12 + m1 4 * m2 13 + m1 8 * m2 14 + m1 12 * m2 15,
    m1 1 * m2 12 + m1 5 * m2 13 + m1 9 * m2 14 + m1 13 * m2 15,
    m1 2 * m2 12 + m1 6 * m2 13 + m1 10 * m2 14 + m1 14 * m2 15,
    m1 3 * m2 12 + m1 7 * m2 13 + m1 11 * m2 14 + m1 15 * m2 15]

/-- `mat4identity` (GLprimer.cpp 110-118). -/
def mat4identity {α : Type} [Zero α] [One α] : Mat4 α :=
  ![1, 0, 0, 0,
    0, 1, 0, 0,
    0, 0, 1, 0,
    0, 0, 0, 1]

/-- `mat4rotx` (GLprimer.cpp 119-127); `cos`, `sin` are the `<cmath>` functions. -/
def mat4rotx {α : Type} [Zero α] [One α] [Neg α] (cos sin : α → α) (angle : α) : Mat4 α :=
  ![1, 0, 0, 0,
    0, cos angle, -sin angle, 0,
    0, sin angle, cos angle, 0,
    0, 0, 0, 1]

/-- `mat4roty` (GLprimer.cpp 128-136). -/
def mat4roty {α : Type} [Zero α] [One α] [Neg α] (cos sin : α → α) (angle : α) : Mat4 α :=
  ![cos angle, 0, sin angle, 0,
    0, 1, 0, 0,
    -sin angle, 0, cos angle, 0,
    0, 0, 0, 1]

/-- `mat4rotz` (GLprimer.cpp 137-145). -/
def mat4rotz {α : Type} [Zero α] [One α] [Neg α] (cos sin : α → α) (angle : α) : Mat4 α :=
  ![cos angle, sin angle, 0, 0,
    -sin angle, cos angle, 0, 0,
    0, 0, 1, 0,
    0, 0, 0, 1]

/-- `mat4scale` (GLprimer.cpp 146-154). -/
def mat4scale {α : Type} [Zero α] [One α] (scale : α) : Mat4 α :=
  ![scale, 0, 0, 0,
    0, scale, 0, 0,
    0, 0, scale, 0,
    0, 0, 0, 1]

/-- `mat4translate` (GLprimer.cpp 155-163). -/
def mat4translate {α : Type} [Zero α] [One α] (x y z : α) : Mat4 α :=
  ![1, 0, 0, 0,
    0, 1, 0, 0,
    0, 0, 1, 0,
    x, y, z, 1]

/-! ## Reading a `Mat4` as a column-major matrix

These are the notions the specification uses to talk about the arrays; the
same reading is used by `mat4print` (GLprimer.cpp 101-109), which prints
`m[0] m[4] m[8] m[12]` as the first row. -/

/-- Column-major index of the entry at row `r`, column `c`: `4*c + r`. -/
def idx (r c : Fin 4) : Fin 16 := ⟨4 * c.val + r.val, by omega⟩

/-- Entry at row `r`, column `c` of a column-major stored matrix. -/
def entry {α : Type} (m : Mat4 α) (r c : Fin 4) : α := m (idx r c)

/-- Applying a column-major stored matrix to a column vector: `(M v)_r = Σ_c M(r,c) v_c`. -/
def applyVec {α : Type} [Add α] [Mul α] (m : Mat4 α) (v : Fin 4 → α) : Fin 4 → α :=
  ![m 0 * v 0 + m 4 * v 1 + m 8 * v 2 + m 12 * v 3,
    m 1 * v 0 + m 5 * v 1 + m 9 * v 2 + m 13 * v 3,
    m 2 * v 0 + m 6 * v 1 + m 10 * v 2 + m 14 * v 3,
    m 3 * v 0 + m 7 * v 1 + m 11 * v 2 + m 15 * v 3]

/-- The bottom row of the column-major matrix is `(0, 0, 0, 1)`. -/
def IsAffine {α : Type} [Zero α] [One α] (m : Mat4 α) : Prop :=
  m 3 = 0 ∧ m 7 = 0 ∧ m 11 = 0 ∧ m 15 = 1

instance {α : Type} [Zero α] [One α] [DecidableEq α] (m : Mat4 α) : Decidable (IsAffine m) := by
  unfold IsAffine; infer_instance

/-- The permutation matrix of the claim on cyclic consistency, stored column-major:
it sends axis x to y, y to z, z to x and fixes the fourth coordinate
(columns are `e_y, e_z, e_x, e_w`). -/
def cyclicPerm {α : Type} [Zero α] [One α] : Mat4 α :=
  ![0, 1, 0, 0,
    0, 0, 1, 0,
    1, 0, 0, 0,
    0, 0, 0, 1]

/-- The inverse (transpose) of `cyclicPerm`: it sends y to x, z to y, x to z. -/
def cyclicPermInv {α : Type} [Zero α] [One α] : Mat4 α :=
  ![0, 0, 1, 0,
    1, 0, 0, 0,
    0, 1, 0, 0,
    0, 0, 0, 1]

/-! ## The arithmetic of `float`: IEEE 754 binary32

The generic definitions above run on this type as they run on a ring: `+` and `*`
are the correctly rounded operations (to nearest, ties to even), every product
and every partial sum is rounded to binary32 (no wider intermediate results, no
fused multiply-add), overflow gives an infinity and `0 * ∞` a NaN. A finite
datum is the triple of its sign, its 24-bit significand and the exponent of its
last place, so that `1.0f` is `finite false (2^23) (-23)`. -/

/-- An IEEE 754 binary32 datum (`float`): a finite number `(-1)^neg * m * 2^e`, an
infinity, or a NaN. -/
inductive F32 where
  | finite (neg : Bool) (m : Nat) (e : Int)
  | inf (neg : Bool)
  | nan
  deriving DecidableEq

namespace F32

/-- The finite data that are binary32 numbers: a 24-bit significand, the exponent of
the last place between `-149` and `104`, normalised unless at the lowest exponent. -/
def isFinite : F32 → Bool
  | finite _ m e => decide (m < 2 ^ 24 ∧ -149 ≤ e ∧ e ≤ 104 ∧ (e = -149 ∨ 2 ^ 23 ≤ m))
  | _ => false

/-- A zero of either sign. -/
def isZero : F32 → Bool
  | finite _ m _ => decide (m = 0)
  | _ => false

/-- The number of binary digits of `n`, found by halving at most `fuel` times. -/
def bitsAux : Nat → Nat → Nat
  | 0, _ => 0
  | fuel + 1, n => if n = 0 then 0 else bitsAux fuel (n / 2) + 1

/-- The number of binary digits of `n`: `2^(bits n - 1) ≤ n < 2^(bits n)` for `n ≠ 0`. -/
def bits (n : Nat) : Nat := bitsAux n n

/-- Overflow check and renormalisation of a rounded significand. -/
def pack (neg : Bool) (m : Nat) (e : Int) : F32 :=
  if m = 2 ^ 24 then (if 104 < e + 1 then inf neg else finite neg (2 ^ 23) (e + 1))
  else if 104 < e then inf neg
  else finite neg m e

/-- Rounding of the exact value `(-1)^neg * n * 2^e` to binary32, to nearest, ties to
even, overflowing to infinity. -/
def round (neg : Bool) (n : Nat) (e : Int) : F32 :=
  if n = 0 then finite neg 0 (-149)
  else
    let last : Int := max (e + (bits n : Nat) - 24) (-149)
    if last ≤ e then pack neg (n * 2 ^ (e - last).toNat) last
    else
      let s := (last - e).toNat
      let q := n / 2 ^ s
      let r := n % 2 ^ s
      let half := 2 ^ (s - 1)
      pack neg (if half < r ∨ (r = half ∧ q % 2 = 1) then q + 1 else q) last

/-- IEEE 754 multiplication. -/
def mul : F32 → F32 → F32
  | nan, _ => nan
  | _, nan => nan
  | inf s, inf t => inf (xor s t)
  | inf s, finite t n _ => if n = 0 then nan else inf (xor s t)
  | finite s m _, inf t => if m = 0 then nan else inf (xor s t)
  | finite s m e, finite t n f => round (xor s t) (m * n) (e + f)

/-- IEEE 754 addition. -/
def add : F32 → F32 → F32
  | nan, _ => nan
  | _, nan => nan
  | inf s, inf t => if s = t then inf s else nan
  | inf s, finite _ _ _ => inf s
  | finite _ _ _, inf t => inf t
  | finite s m e, finite t n f =>
    let k := min e f
    let a : Int := (if s then -1 else 1) * ((m * 2 ^ (e - k).toNat : Nat) : Int)
    let b : Int := (if t then -1 else 1) * ((n * 2 ^ (f - k).toNat : Nat) : Int)
    if a + b = 0 then finite (s && t) 0 (-149)
    else round (decide (a + b < 0)) (a + b).natAbs k

/-- Unary minus. -/
def neg : F32 → F32
  | finite s m e => finite (!s) m e
  | inf s => inf (!s)
  | nan => nan

/-- The comparison `==` of IEEE 754: a NaN equals nothing, the two zeros are equal. -/
def eq : F32 → F32 → Bool
  | finite s m e, finite t n f => (m = 0 && n = 0) || (s = t && m = n && e = f)
  | inf s, inf t => s = t
  | _, _ => false

/-- The exact value of a finite datum (`0` for an infinity or a NaN). -/
def toRat : F32 → ℚ
  | finite s m e => (if s then -1 else 1) * m * 2 ^ e
  | _ => 0

instance : Zero F32 := ⟨finite false 0 (-149)⟩
instance : One F32 := ⟨finite false (2 ^ 23) (-23)⟩
instance : Add F32 := ⟨add⟩
instance : Mul F32 := ⟨mul⟩
instance : Neg F32 := ⟨neg⟩

/-- `y` is `x`, or both are zeros: what a sum keeps of `x` when only zeros are added. -/
def Near (y x : F32) : Prop := y = x ∨ (x.isZero = true ∧ ∃ u, y = finite u 0 (-149))

end F32

/-! ### Binary32 inputs used in the evaluations below -/

/-- The `float` 3. -/
def three : F32 := F32.finite false 12582912 (-22)

/-- The `float` 5. -/
def five : F32 := F32.finite false 10485760 (-21)

/-- The `float` `2^100` (about `1.27e30`). -/
def big : F32 := F32.finite false 8388608 77

/-- A matrix of finite floats whose first row is `(1e8, 1, -1e8, 0)`. -/
def cancellingRow : Mat4 F32 :=
  ![F32.finite false 12500000 3, 0, 0, 0,
    1, 0, 0, 0,
    F32.finite true 12500000 3, 0, 0, 0,
    0, 0, 0, 0]

/-- A matrix of finite floats whose first column is `(1, 1, 1, 0)`. -/
def onesColumn : Mat4 F32 :=
  ![1, 1, 1, 0,
    0, 0, 0, 0,
    0, 0, 0, 0,
    0, 0, 0, 0]

/-- The column vector `(8388609, 0, 0, 0)`; `8388609 = 2^23 + 1` is a `float`. -/
def oddVector : Fin 4 → F32 := ![F32.finite false 8388609 0, 0, 0, 0]

/-- A matrix with entry 0 equal to `+∞` and every other entry 5. -/
def infiniteEntry : Mat4 F32 :=
  ![F32.inf false, five, five, five,
    five, five, five, five,
    five, five, five, five,
    five, five, five, five]

/-! ## The program: `main` as a function from a scripted collaborator to a call trace -/

/-- One call made by `main` to GLFW, GLEW, OpenGL, the `Shader`, `TriangleSoup` and
`util` collaborators, or one write to a console stream, with the arguments (and,
for queries, the scripted result) that matter. -/
inductive Call (α : Type) where
  | glfwInit
  | glfwGetVideoMode
  | glfwWindowHint (hint value : String)
  | glfwCreateWindow (title : String)
  | stdout (text : String)
  | stderr (text : String)
  /-- The report of vendor, renderer, version and desktop size written to stdout (298-301). -/
  | contextInfo
  | glfwTerminate
  | glfwMakeContextCurrent
  | glewInit
  | glfwSwapInterval (interval : Int)
  | glGenVertexArrays (name : Nat)
  | glBindVertexArray (name : Nat)
  | glGenBuffers (name : Nat)
  | glBindBuffer (target : String) (name : Nat)
  | glBufferData (target : String) (bytes : Nat)
  | glVertexAttribPointer (location dimensions : Int)
  | glEnableVertexAttribArray (location : Int)
  | createShader (vertexPath fragmentPath : String)
  | glGetUniformLocation (name : String) (result : Int)
  | createSphere (radius : α) (segments : Nat)
  | glfwWindowShouldClose (result : Bool)
  | displayFPS
  | glfwGetWindowSize (width height : Int)
  | glViewport (x y width height : Int)
  | glClearColor (r g b a : α)
  | glClear
  | glUseProgram
  | glfwGetTime (result : α)
  | glUniformMatrix4fv (location : Int) (value : Mat4 α)
  | glUniform1f (location : Int) (value : α)
  /-- The call `mySoup.render()` (386). -/
  | meshRender
  | glDrawElements (count : Nat)
  | glEnable (cap : String)
  | glPolygonMode (face mode : String)
  | glCullFace (mode : String)
  | glfwSwapBuffers
  | glfwPollEvents
  | glfwGetKey (key : String) (result : Bool)
  | glfwSetWindowShouldClose
  | glDeleteVertexArrays (name : Nat)
  | glDeleteBuffers (name : Nat)
  | glfwDestroyWindow

/-- The scripted window, time and shader collaborator that `main` runs against. -/
structure Mock (α : Type) where
  /-- `glfwCreateWindow` returns a window. -/
  windowOpens : Bool
  /-- `glewInit()` returns `GLEW_OK`. -/
  glewInitOk : Bool
  /-- The name written by `glGenVertexArrays` (312). -/
  genVertexArray : Nat
  /-- The name written by the `k`-th `glGenBuffers` call of `main` (315, 316, 318). -/
  genBuffer : Nat → Nat
  /-- The result of `glGetUniformLocation(myShader.id(), name)`; `-1` is "not found". -/
  uniformLocation : String → Int
  /-- The close flag of the window when the loop is first entered. -/
  shouldCloseAtStart : Bool
  /-- Whether `glfwPollEvents` in frame `i` raises the close flag. -/
  closeRequested : Nat → Bool
  /-- The result of `glfwGetKey(window, GLFW_KEY_ESCAPE)` in frame `i`. -/
  escapePressed : Nat → Bool
  /-- The result of the `k`-th `glfwGetTime()` call of frame `i` (`k = 0..3`). -/
  getTime : Nat → Nat → α
  /-- The result of `glfwGetWindowSize` in frame `i`. -/
  windowSize : Nat → Int × Int
  /-- The `<cmath>` function `cos`. -/
  cos : α → α
  /-- The `<cmath>` function `sin`. -/
  sin : α → α

section Program

variable {α : Type} [Field α]

open Call

/-- `createVertexBuffer` (GLprimer.cpp 45-61); `bufferID` is the name `glGenBuffers`
writes, `sizeof(float)` is 4. -/
def createVertexBuffer (bufferID : Nat) (location dimensions : Int) (vertices : List α) :
    Nat × List (Call α) :=
  (bufferID,
    [glGenBuffers bufferID,
     glBindBuffer "GL_ARRAY_BUFFER" bufferID,
     glBufferData "GL_ARRAY_BUFFER" (vertices.length * 4),
     glVertexAttribPointer location dimensions,
     glEnableVertexAttribArray location])

/-- `createIndexBuffer` (GLprimer.cpp 62-72); `sizeof(unsigned int)` is 4. -/
def createIndexBuffer (bufferID : Nat) (indices : List Nat) : Nat × List (Call α) :=
  (bufferID,
    [glGenBuffers bufferID,
     glBindBuffer "GL_ELEMENT_ARRAY_BUFFER" bufferID,
     glBufferData "GL_ELEMENT_ARRAY_BUFFER" (indices.length * 4)])

/-- `vertexArrayData` (171-206): empty, its old contents are commented out. -/
def vertexArrayData : List α := []

/-- `indexArrayData` (207-223): empty, its old contents are commented out. -/
def indexArrayData : List Nat := []

/-- `colorArrayData` (225-257). -/
def colorArrayData : List α :=
  [1, 0, 0,  0, 1, 0,  1, 0, 1,
   1, 0, 0,  0, 1, 1,  1, 0, 1,
   1, 0, 0,  0, 1, 1,  0, 0, 1,
   1, 0, 0,  0, 1, 0,  0, 0, 1,
   0, 1, 0,  1, 1, 0,  1, 0, 1,
   1, 1, 0,  1, 0, 1,  0, 1, 1,
   1, 1, 0,  0, 0, 1,  0, 1, 1,
   1, 1, 0,  0, 0, 1,  0, 1, 0]

/-- The calls of `main` up to and including `glfwCreateWindow` (262-278). -/
def openWindowCalls : List (Call α) :=
  [glfwInit,
   glfwGetVideoMode,
   glfwWindowHint "GLFW_CONTEXT_VERSION_MAJOR" "3",
   glfwWindowHint "GLFW_CONTEXT_VERSION_MINOR" "3",
   glfwWindowHint "GLFW_OPENGL_PROFILE" "GLFW_OPENGL_CORE_PROFILE",
   glfwWindowHint "GLFW_OPENGL_FORWARD_COMPAT" "GL_TRUE",
   glfwCreateWindow "GLprimer"]

/-- The calls of `main` between the two setup checks and the loop (298-333): context
report, vertex array and buffers, shader, lookup of `time` with its warning, sphere. -/
def setupCalls (m : Mock α) : List (Call α) :=
  let vertex_array_ID := m.genVertexArray
  let vertexBuffer := createVertexBuffer (m.genBuffer 0) 0 3 (vertexArrayData : List α)
  let colorBuffer := createVertexBuffer (m.genBuffer 1) 1 3 (colorArrayData : List α)
  let indexBuffer := createIndexBuffer (m.genBuffer 2) indexArrayData
  let locationTime := m.uniformLocation "time"
  [contextInfo,
   glfwSwapInterval 0,
   glGenVertexArrays vertex_array_ID,
   glBindVertexArray vertex_array_ID]
  ++ vertexBuffer.2 ++ colorBuffer.2 ++ indexBuffer.2 ++
  [glBindVertexArray 0,
   createShader "../Shaders/vertex.glsl" "../Shaders/fragment.glsl",
   glGetUniformLocation "time" locationTime]
  ++ (if locationTime = -1 then
        [stdout "Unable to locate variable \x27time\x27 in shader!\n"]
      else [])
  ++ [createSphere 1 20]

/-- One pass through the body of the main loop (337-417), frame number `i`. The
matrices `matOR`, `matR2` and `cam` are computed and never used; `locationTime` is
the variable set before the loop (323), the other locations are looked up in
every frame. -/
def frame (m : Mock α) (i : Nat) : List (Call α) :=
  let size := m.windowSize i
  let _matOR := mat4roty m.cos m.sin (m.getTime i 0)
  let matR1 := mat4roty m.cos m.sin (m.getTime i 1)
  let _matR2 := mat4rotz m.cos m.sin (m.getTime i 2)
  let _cam := mat4rotx m.cos m.sin 30
  let matS : Mat4 α := mat4scale 0.8
  let matOT : Mat4 α := mat4translate 0.5 0 0
  let matA := mat4mult matR1 matS
  let locationTime := m.uniformLocation "time"
  let locationE := m.uniformLocation "E"
  let locationOT := m.uniformLocation "OT"
  let time := m.getTime i 3
  let locationR := m.uniformLocation "R"
  [displayFPS,
   glfwGetWindowSize size.1 size.2,
   glViewport 0 0 size.1 size.2,
   glClearColor 0.3 0.3 0.3 0,
   glClear,
   glUseProgram,
   glfwGetTime (m.getTime i 0),
   glfwGetTime (m.getTime i 1),
   glfwGetTime (m.getTime i 2),
   glGetUniformLocation "E" locationE,
   glUseProgram,
   glUniformMatrix4fv locationE matA,
   glGetUniformLocation "OT" locationOT,
   glUseProgram,
   glUniformMatrix4fv locationOT matOT,
   glfwGetTime time,
   glUseProgram,
   glUniform1f locationTime time,
   glGetUniformLocation "R" locationR,
   glUseProgram,
   glUniformMatrix4fv locationR matR1,
   meshRender,
   glBindVertexArray m.genVertexArray,
   glDrawElements 36,
   glEnable "GL_CULL_FACE",
   glPolygonMode "GL_FRONT_AND_BACK" "GL_FILL",
   glCullFace "GL_BACK",
   glfwSwapBuffers,
   glfwPollEvents,
   glfwGetKey "GLFW_KEY_ESCAPE" (m.escapePressed i)]
  ++ (if m.escapePressed i then [glfwSetWindowShouldClose] else [])

/-- The main loop (336-418): `closeFlag` is what `glfwWindowShouldClose` returns at the
top of frame `i`; the flag is raised by `glfwPollEvents` or by the escape key.
`none` when `fuel` tests of the loop condition do not reach a raised flag. -/
def renderLoop (m : Mock α) : Nat → Nat → Bool → Option (List (Call α))
  | 0, _, _ => none
  | fuel + 1, i, closeFlag =>
    if closeFlag then some [glfwWindowShouldClose true]
    else
      (renderLoop m fuel (i + 1) (m.closeRequested i || m.escapePressed i)).map
        fun rest => glfwWindowShouldClose false :: (frame m i ++ rest)

/-- The calls of a loop that runs `k` frames, starting with frame `i`, and then sees
the close flag raised. -/
def loopTrace (m : Mock α) : Nat → Nat → List (Call α)
  | _, 0 => [glfwWindowShouldClose true]
  | i, k + 1 => glfwWindowShouldClose false :: (frame m i ++ loopTrace m (i + 1) k)

/-- The calls of `main` after the loop (422-430). -/
def shutdownCalls (m : Mock α) : List (Call α) :=
  [glDeleteVertexArrays m.genVertexArray,
   glDeleteBuffers (m.genBuffer 0),
   glDeleteBuffers (m.genBuffer 2),
   glDeleteBuffers (m.genBuffer 1),
   glfwDestroyWindow,
   glfwTerminate]

/-- `main` (GLprimer.cpp 169-431): the calls made, in order, and the exit status. -/
def main (m : Mock α) (fuel : Nat) : Option (List (Call α) × Int) :=
  if !m.windowOpens then
    some (openWindowCalls ++ [stdout "Unable to open window. Terminating.\n", glfwTerminate], -1)
  else if !m.glewInitOk then
    some (openWindowCalls ++
      [glfwMakeContextCurrent, glewInit, stderr "Error: glewGetErrorString(err)\n",
       glfwTerminate], -1)
  else
    (renderLoop m fuel 0 m.shouldCloseAtStart).map fun loop =>
      (openWindowCalls ++ [glfwMakeContextCurrent, glewInit] ++ setupCalls m ++ loop ++
        shutdownCalls m, 0)

/-! ### Observations on a trace -/

/-- A matrix write (`glUniformMatrix4fv`) to location `loc`. -/
def isMatrixWrite (loc : Int) : Call α → Bool
  | glUniformMatrix4fv l _ => decide (l = loc)
  | _ => false

/-- The mesh render call `mySoup.render()`. -/
def isMeshRender : Call α → Bool
  | meshRender => true
  | _ => false

/-- A direct indexed-draw call `glDrawElements`. -/
def isDrawElements : Call α → Bool
  | glDrawElements _ => true
  | _ => false

/-- A draw call: the mesh render call or a direct indexed-draw call. -/
def isDrawCall (c : Call α) : Bool := isMeshRender c || isDrawElements c

/-- Presenting the frame: `glfwSwapBuffers`. -/
def isPresent : Call α → Bool
  | glfwSwapBuffers => true
  | _ => false

/-- A scalar write (`glUniform1f`) to location `loc`. -/
def isFloatWrite (loc : Int) : Call α → Bool
  | glUniform1f l _ => decide (l = loc)
  | _ => false

/-- Release of the buffer `name`. -/
def isDeleteBuffer (name : Nat) : Call α → Bool
  | glDeleteBuffers n => decide (n = name)
  | _ => false

/-- Release of the vertex array `name`. -/
def isDeleteVertexArray (name : Nat) : Call α → Bool
  | glDeleteVertexArrays n => decide (n = name)
  | _ => false

/-- Release of any buffer or vertex array. -/
def isRelease : Call α → Bool
  | glDeleteBuffers _ => true
  | glDeleteVertexArrays _ => true
  | _ => false

/-- Any entry written to a console stream. -/
def isLog : Call α → Bool
  | stdout _ => true
  | stderr _ => true
  | _ => false

/-- The flag `glfwWindowShouldClose` returns at the top of frame `i`, given that it
returned `false` at the top of every earlier frame. -/
def closeFlagAt (m : Mock α) : Nat → Bool
  | 0 => m.shouldCloseAtStart
  | i + 1 => m.closeRequested i || m.escapePressed i

/-- The loop runs exactly `n` iterations: the close flag is first seen raised at the
top of frame `n`. -/
def RunsExactly (m : Mock α) (n : Nat) : Prop :=
  (∀ i, i < n → closeFlagAt m i = false) ∧ closeFlagAt m n = true

instance (m : Mock α) (n : Nat) : Decidable (RunsExactly m n) := by
  unfold RunsExactly; infer_instance

/-- A scripted run over `ℚ`: every slot is found (`time` 0, `E` 1, `OT` 2, `R` 3), the
time is the frame number `t = 0, 1, 2, ...`, and the window is closed in frame 2,
so the loop runs exactly three iterations. -/
def mockThreeFrames : Mock ℚ where
  windowOpens := true
  glewInitOk := true
  genVertexArray := 1
  genBuffer := fun k => k + 1
  uniformLocation := fun name =>
    if name = "time" then 0 else if name = "E" then 1 else if name = "OT" then 2
    else if name = "R" then 3 else -1
  shouldCloseAtStart := false
  closeRequested := fun i => decide (i = 2)
  escapePressed := fun _ => false
  getTime := fun i _ => i
  windowSize := fun _ => (512, 512)
  cos := fun _ => 1
  sin := fun _ => 0

/-- The run `mockThreeFrames` with a shader that has no slot `E`. -/
def mockMissingE : Mock ℚ :=
  { mockThreeFrames with
    uniformLocation := fun name =>
      if name = "time" then 0 else if name = "OT" then 2 else if name = "R" then 3 else -1 }

end Program

/-! ## Reading entries of array literals -/

section Literals

variable {α : Type}

theorem vec16_0 (x0 x1 x2 x3 x4 x5 x6 x7 x8 x9 x10 x11 x12 x13 x14 x15 : α) :
    (![x0, x1, x2, x3, x4, x5, x6, x7, x8, x9, x10, x11, x12, x13, x14, x15] : Fin 16 → α) 0 = x0 := rfl

theorem vec16_1 (x0 x1 x2 x3 x4 x5 x6 x7 x8 x9 x10 x11 x12 x13 x14 x15 : α) :
    (![x0, x1, x2, x3, x4, x5, x6, x7, x8, x9, x10, x11, x12, x13, x14, x15] : Fin 16 → α) 1 = x1 := rfl

theorem vec16_2 (x0 x1 x2 x3 x4 x5 x6 x7 x8 x9 x10 x11 x12 x13 x14 x15 : α) :
    (![x0, x1, x2, x3, x4, x5, x6, x7, x8, x9, x10, x11, x12, x13, x14, x15] : Fin 16 → α) 2 = x2 := rfl

theorem vec16_3 (x0 x1 x2 x3 x4 x5 x6 x7 x8 x9 x10 x11 x12 x13 x14 x15 : α) :
    (![x0, x1, x2, x3, x4, x5, x6, x7, x8, x9, x10, x11, x12, x13, x14, x15] : Fin 16 → α) 3 = x3 := rfl

theorem vec16_4 (x0 x1 x2 x3 x4 x5 x6 x7 x8 x9 x10 x11 x12 x13 x14 x15 : α) :
    (![x0, x1, x2, x3, x4, x5, x6, x7, x8, x9, x10, x11, x12, x13, x14, x15] : Fin 16 → α) 4 = x4 := rfl

theorem vec16_5 (x0 x1 x2 x3 x4 x5 x6 x7 x8 x9 x10 x11 x12 x13 x14 x15 : α) :
    (![x0, x1, x2, x3, x4, x5, x6, x7, x8, x9, x10, x11, x12, x13, x14, x15] : Fin 16 → α) 5 = x5 := rfl

theorem vec16_6 (x0 x1 x2 x3 x4 x5 x6 x7 x8 x9 x10 x11 x12 x13 x14 x15 : α) :
    (![x0, x1, x2, x3, x4, x5, x6, x7, x8, x9, x10, x11, x12, x13, x14, x15] : Fin 16 → α) 6 = x6 := rfl

theorem vec16_7 (x0 x1 x2 x3 x4 x5 x6 x7 x8 x9 x10 x11 x12 x13 x14 x15 : α) :
    (![x0, x1, x2, x3, x4, x5, x6, x7, x8, x9, x10, x11, x12, x13, x14, x15] : Fin 16 → α) 7 = x7 := rfl

theorem vec16_8 (x0 x1 x2 x3 x4 x5 x6 x7 x8 x9 x10 x11 x12 x13 x14 x15 : α) :
    (![x0, x1, x2, x3, x4, x5, x6, x7, x8, x9, x10, x11, x12, x13, x14, x15] : Fin 16 → α) 8 = x8 := rfl

theorem vec16_9 (x0 x1 x2 x3 x4 x5 x6 x7 x8 x9 x10 x11 x12 x13 x14 x15 : α) :
    (![x0, x1, x2, x3, x4, x5, x6, x7, x8, x9, x10, x11, x12, x13, x14, x15] : Fin 16 → α) 9 = x9 := rfl

theorem vec16_10 (x0 x1 x2 x3 x4 x5 x6 x7 x8 x9 x10 x11 x12 x13 x14 x15 : α) :
    (![x0, x1, x2, x3, x4, x5, x6, x7, x8, x9, x10, x11, x12, x13, x14, x15] : Fin 16 → α) 10 = x10 := rfl

theorem vec16_11 (x0 x1 x2 x3 x4 x5 x6 x7 x8 x9 x10 x11 x12 x13 x14 x15 : α) :
    (![x0, x1, x2, x3, x4, x5, x6, x7, x8, x9, x10, x11, x12, x13, x14, x15] : Fin 16 → α) 11 = x11 := rfl

theorem vec16_12 (x0 x1 x2 x3 x4 x5 x6 x7 x8 x9 x10 x11 x12 x13 x14 x15 : α) :
    (![x0, x1, x2, x3, x4, x5, x6, x7, x8, x9, x10, x11, x12, x13, x14, x15] : Fin 16 → α) 12 = x12 := rfl

theorem vec16_13 (x0 x1 x2 x3 x4 x5 x6 x7 x8 x9 x10 x11 x12 x13 x14 x15 : α) :
    (![x0, x1, x2, x3, x4, x5, x6, x7, x8, x9, x10, x11, x12, x13, x14, x15] : Fin 16 → α) 13 = x13 := rfl

theorem vec16_14 (x0 x1 x2 x3 x4 x5 x6 x7 x8 x9 x10 x11 x12 x13 x14 x15 : α) :
    (![x0, x1, x2, x3, x4, x5, x6, x7, x8, x9, x10, x11, x12, x13, x14, x15] : Fin 16 → α) 14 = x14 := rfl

theorem vec16_15 (x0 x1 x2 x3 x4 x5 x6 x7 x8 x9 x10 x11 x12 x13 x14 x15 : α) :
    (![x0, x1, x2, x3, x4, x5, x6, x7, x8, x9, x10, x11, x12, x13, x14, x15] : Fin 16 → α) 15 = x15 := rfl

theorem vec4_0 (x0 x1 x2 x3 : α) : (![x0, x1, x2, x3] : Fin 4 → α) 0 = x0 := rfl

theorem vec4_1 (x0 x1 x2 x3 : α) : (![x0, x1, x2, x3] : Fin 4 → α) 1 = x1 := rfl

theorem vec4_2 (x0 x1 x2 x3 : α) : (![x0, x1, x2, x3] : Fin 4 → α) 2 = x2 := rfl

theorem vec4_3 (x0 x1 x2 x3 : α) : (![x0, x1, x2, x3] : Fin 4 → α) 3 = x3 := rfl

theorem ext16 (a b : Mat4 α) (h0 : a 0 = b 0) (h1 : a 1 = b 1) (h2 : a 2 = b 2)
    (h3 : a 3 = b 3) (h4 : a 4 = b 4) (h5 : a 5 = b 5) (h6 : a 6 = b 6) (h7 : a 7 = b 7)
    (h8 : a 8 = b 8) (h9 : a 9 = b 9) (h10 : a 10 = b 10) (h11 : a 11 = b 11)
    (h12 : a 12 = b 12) (h13 : a 13 = b 13) (h14 : a 14 = b 14) (h15 : a 15 = b 15) :
    a = b := by
  funext i
  fin_cases i
  exacts [h0, h1, h2, h3, h4, h5, h6, h7, h8, h9, h10, h11, h12, h13, h14, h15]

theorem ext4 (v w : Fin 4 → α) (h0 : v 0 = w 0) (h1 : v 1 = w 1) (h2 : v 2 = w 2)
    (h3 : v 3 = w 3) : v = w := by
  funext i
  fin_cases i
  exacts [h0, h1, h2, h3]

theorem forall_fin16 (P : Fin 16 → Prop) (h0 : P 0) (h1 : P 1) (h2 : P 2) (h3 : P 3) (h4 : P 4) (h5 : P 5) (h6 : P 6) (h7 : P 7) (h8 : P 8) (h9 : P 9) (h10 : P 10) (h11 : P 11) (h12 : P 12) (h13 : P 13) (h14 : P 14) (h15 : P 15) :
    ∀ i, P i := by
  intro i
  fin_cases i
  exacts [h0, h1, h2, h3, h4, h5, h6, h7, h8, h9, h10, h11, h12, h13, h14, h15]

end Literals

/-! ## Theorems: binary32 arithmetic -/

namespace F32

theorem bitsAux_spec : ∀ fuel n, n ≤ fuel →
    n < 2 ^ bitsAux fuel n ∧ (n ≠ 0 → 2 ^ (bitsAux fuel n - 1) ≤ n) := by
  intro fuel
  induction fuel with
  | zero =>
    intro n hn
    have : n = 0 := by omega
    subst this
    simp [bitsAux]
  | succ fuel ih =>
    intro n hn
    by_cases h0 : n = 0
    · subst h0; simp [bitsAux]
    · have hdiv : n / 2 ≤ fuel := by omega
      obtain ⟨h1, h2⟩ := ih (n / 2) hdiv
      simp only [bitsAux, h0, if_false, Nat.add_sub_cancel]
      refine ⟨?_, fun _ => ?_⟩
      · rw [Nat.pow_succ]; omega
      · by_cases hz : n / 2 = 0
        · have : bitsAux fuel (n / 2) = 0 := by
            rw [hz]; cases fuel <;> simp [bitsAux]
          rw [this]; simp; omega
        · have h3 := h2 hz
          obtain ⟨b, hb⟩ : ∃ b, bitsAux fuel (n / 2) = b + 1 := by
            cases hb : bitsAux fuel (n / 2) with
            | zero => rw [hb] at h1; simp at h1; omega
            | succ b => exact ⟨b, rfl⟩
          rw [hb] at h3 ⊢
          simp only [Nat.add_sub_cancel] at h3
          rw [Nat.pow_succ]; omega

theorem bits_lt (n : Nat) : n < 2 ^ bits n := (bitsAux_spec n n (Nat.le_refl n)).1

theorem bits_le (n : Nat) (h : n ≠ 0) : 2 ^ (bits n - 1) ≤ n :=
  (bitsAux_spec n n (Nat.le_refl n)).2 h

/-- The bit length is determined by the two powers of two around the number. -/
theorem bits_eq (n b : Nat) (h1 : 2 ^ b ≤ n) (h2 : n < 2 ^ (b + 1)) : bits n = b + 1 := by
  have hn : n ≠ 0 := by
    have : 0 < 2 ^ b := Nat.two_pow_pos b
    omega
  have u := bits_lt n
  have l := bits_le n hn
  have a1 : b < bits n := by
    by_contra hc
    have : 2 ^ bits n ≤ 2 ^ b := Nat.pow_le_pow_right (by decide) (by omega)
    omega
  have a2 : bits n - 1 < b + 1 := by
    by_contra hc
    have : 2 ^ (b + 1) ≤ 2 ^ (bits n - 1) := Nat.pow_le_pow_right (by decide) (by omega)
    omega
  omega


theorem pack_eq (s : Bool) (m : Nat) (e : Int) (hm : m < 2 ^ 24) (hhi : e ≤ 104) :
    pack s m e = finite s m e := by
  unfold pack
  rw [if_neg (by omega), if_neg (by omega)]

/-- Rounding is exact on binary32 numbers, however the value is presented. -/
theorem round_exact (s : Bool) (m : Nat) (e : Int) (k : Nat)
    (h0 : m ≠ 0) (hm : m < 2 ^ 24) (hlo : -149 ≤ e) (hhi : e ≤ 104)
    (hn : e = -149 ∨ 2 ^ 23 ≤ m) :
    round s (m * 2 ^ k) (e - k) = finite s m e := by
  have hk : 0 < 2 ^ k := Nat.two_pow_pos k
  have hne : m * 2 ^ k ≠ 0 := Nat.mul_ne_zero h0 (by omega)
  obtain ⟨b, hb⟩ : ∃ b, bits m = b + 1 := by
    cases hb : bits m with
    | zero => have := bits_lt m; rw [hb] at this; simp at this; omega
    | succ b => exact ⟨b, rfl⟩
  have hl : 2 ^ b ≤ m := by have := bits_le m h0; rwa [hb, Nat.add_sub_cancel] at this
  have hu : m < 2 ^ (b + 1) := by have := bits_lt m; rwa [hb] at this
  have hb23 : b ≤ 23 := by
    by_contra hc
    have : 2 ^ 24 ≤ 2 ^ b := Nat.pow_le_pow_right (by decide) (by omega)
    omega
  have hbn : 2 ^ 23 ≤ m → b = 23 := by
    intro h
    by_contra hc
    have : 2 ^ (b + 1) ≤ 2 ^ 23 := Nat.pow_le_pow_right (by decide) (by omega)
    omega
  have hbits : bits (m * 2 ^ k) = b + k + 1 := by
    apply bits_eq
    · rw [Nat.pow_add]; exact Nat.mul_le_mul_right _ hl
    · have : m * 2 ^ k < 2 ^ (b + 1) * 2 ^ k := Nat.mul_lt_mul_of_pos_right hu hk
      rwa [← Nat.pow_add, show b + 1 + k = b + k + 1 by omega] at this
  have hlast : max (e - (k : Int) + ((bits (m * 2 ^ k) : Nat) : Int) - 24) (-149) = e := by
    rw [hbits]
    rcases hn with hn | hn
    · rw [max_eq_right (by push_cast; omega)]; exact hn.symm
    · have := hbn hn
      rw [max_eq_left (by push_cast; omega)]; push_cast; omega
  unfold round
  rw [if_neg hne]
  simp only [hlast]
  by_cases hk0 : k = 0
  · subst hk0
    simp only [Nat.cast_zero, sub_zero, le_refl, if_true, sub_self, Int.toNat_zero, pow_zero,
      mul_one]
    exact pack_eq s m e hm hhi
  · rw [if_neg (by omega)]
    have hs : (e - (e - (k : Int))).toNat = k := by
      rw [show e - (e - (k : Int)) = (k : Int) by omega]; exact Int.toNat_natCast k
    rw [hs, Nat.mul_div_cancel _ hk, Nat.mul_mod_left]
    have hhalf : 0 < 2 ^ (k - 1) := Nat.two_pow_pos _
    rw [if_neg (by omega)]
    exact pack_eq s m e hm hhi


theorem isFinite_iff (x : F32) : x.isFinite = true ↔
    ∃ s m e, x = finite s m e ∧ m < 2 ^ 24 ∧ -149 ≤ e ∧ e ≤ 104 ∧ (e = -149 ∨ 2 ^ 23 ≤ m) := by
  constructor
  · intro h
    cases x with
    | finite s m e => exact ⟨s, m, e, rfl, of_decide_eq_true h⟩
    | inf s => exact absurd h Bool.false_ne_true
    | nan => exact absurd h Bool.false_ne_true
  · rintro ⟨s, m, e, rfl, h⟩
    exact decide_eq_true h

theorem round_zero (s : Bool) (e : Int) : round s 0 e = finite s 0 (-149) := by
  simp [round]

theorem one_mul_finite (x : F32) (hx : x.isFinite = true) : 1 * x = x := by
  obtain ⟨s, m, e, rfl, hm, hlo, hhi, hn⟩ := (isFinite_iff x).1 hx
  show round (xor false s) (2 ^ 23 * m) (-23 + e) = finite s m e
  rw [Bool.false_xor]
  by_cases h0 : m = 0
  · subst h0
    have : e = -149 := by omega
    rw [this]; exact round_zero s _
  · have := round_exact s m e 23 h0 hm hlo hhi hn
    rw [Nat.mul_comm, show -23 + e = e - ((23 : Nat) : Int) by push_cast; omega]
    exact this

theorem mul_one_finite (x : F32) (hx : x.isFinite = true) : x * 1 = x := by
  obtain ⟨s, m, e, rfl, hm, hlo, hhi, hn⟩ := (isFinite_iff x).1 hx
  show round (xor s false) (m * 2 ^ 23) (e + -23) = finite s m e
  rw [Bool.xor_false]
  by_cases h0 : m = 0
  · subst h0
    have : e = -149 := by omega
    rw [this]; exact round_zero s _
  · have := round_exact s m e 23 h0 hm hlo hhi hn
    rw [show e + -23 = e - ((23 : Nat) : Int) by push_cast; omega]
    exact this

theorem zero_mul_finite (x : F32) (hx : x.isFinite = true) :
    ∃ t, 0 * x = finite t 0 (-149) := by
  obtain ⟨s, m, e, rfl, -⟩ := (isFinite_iff x).1 hx
  refine ⟨xor false s, ?_⟩
  show round (xor false s) (0 * m) (-149 + e) = _
  rw [Nat.zero_mul]; exact round_zero _ _

theorem mul_zero_finite (x : F32) (hx : x.isFinite = true) :
    ∃ t, x * 0 = finite t 0 (-149) := by
  obtain ⟨s, m, e, rfl, -⟩ := (isFinite_iff x).1 hx
  refine ⟨xor s false, ?_⟩
  show round (xor s false) (m * 0) (e + -149) = _
  rw [Nat.mul_zero]; exact round_zero _ _

theorem zero_add_zero (t u : Bool) :
    finite t 0 (-149) + finite u 0 (-149) = finite (t && u) 0 (-149) := by
  cases t <;> cases u <;> decide

/-- Adding a zero to a binary32 number gives the number back, or a zero when the
number is a zero. -/
theorem add_zero_finite (x : F32) (t : Bool) (hx : x.isFinite = true) :
    x + finite t 0 (-149) = x ∨
      (x.isZero = true ∧ ∃ u, x + finite t 0 (-149) = finite u 0 (-149)) := by
  obtain ⟨s, m, e, rfl, hm, hlo, hhi, hn⟩ := (isFinite_iff x).1 hx
  by_cases h0 : m = 0
  · subst h0
    have he : e = -149 := by omega
    subst he
    exact Or.inr ⟨rfl, _, zero_add_zero s t⟩
  · left
    have hmin : min e (-149) = -149 := min_eq_right hlo
    have hK : ((e - -149).toNat : Int) = e + 149 := by
      rw [Int.toNat_of_nonneg (by omega)]; omega
    have hpos : 0 < m * 2 ^ (e - -149).toNat :=
      Nat.mul_pos (Nat.pos_of_ne_zero h0) (Nat.two_pow_pos _)
    have hr := round_exact s m e (e - -149).toNat h0 hm hlo hhi hn
    rw [show e - (((e - -149).toNat : Nat) : Int) = -149 by omega] at hr
    show add (finite s m e) (finite t 0 (-149)) = finite s m e
    simp only [add, hmin, sub_self, Int.toNat_zero, pow_zero, Nat.zero_mul, Nat.cast_zero,
      mul_zero, add_zero]
    cases s
    · simp only [Bool.false_eq_true, if_false, one_mul]
      rw [if_neg (by omega)]
      rw [show decide (((m * 2 ^ (e - -149).toNat : Nat) : Int) < 0) = false by
        simp only [decide_eq_false_iff_not]; omega]
      rw [Int.natAbs_ofNat]; exact hr
    · simp only [if_true]
      rw [if_neg (by omega)]
      rw [show decide (-1 * ((m * 2 ^ (e - -149).toNat : Nat) : Int) < 0) = true by
        simp only [decide_eq_true_eq]; omega]
      rw [show (-1 * ((m * 2 ^ (e - -149).toNat : Nat) : Int)).natAbs =
        m * 2 ^ (e - -149).toNat by omega]
      exact hr

/-- Adding a binary32 number to a zero gives the number back, or a zero when the
number is a zero. -/
theorem zero_add_finite (x : F32) (t : Bool) (hx : x.isFinite = true) :
    finite t 0 (-149) + x = x ∨
      (x.isZero = true ∧ ∃ u, finite t 0 (-149) + x = finite u 0 (-149)) := by
  obtain ⟨s, m, e, rfl, hm, hlo, hhi, hn⟩ := (isFinite_iff x).1 hx
  by_cases h0 : m = 0
  · subst h0
    have he : e = -149 := by omega
    subst he
    exact Or.inr ⟨rfl, _, zero_add_zero t s⟩
  · left
    have hmin : min (-149) e = -149 := min_eq_left hlo
    have hpos : 0 < m * 2 ^ (e - -149).toNat :=
      Nat.mul_pos (Nat.pos_of_ne_zero h0) (Nat.two_pow_pos _)
    have hr := round_exact s m e (e - -149).toNat h0 hm hlo hhi hn
    rw [show e - (((e - -149).toNat : Nat) : Int) = -149 by omega] at hr
    show add (finite t 0 (-149)) (finite s m e) = finite s m e
    simp only [add, hmin, sub_self, Int.toNat_zero, pow_zero, Nat.zero_mul, Nat.cast_zero,
      mul_zero, zero_add]
    cases s
    · simp only [Bool.false_eq_true, if_false, one_mul]
      rw [if_neg (by omega)]
      rw [show decide (((m * 2 ^ (e - -149).toNat : Nat) : Int) < 0) = false by
        simp only [decide_eq_false_iff_not]; omega]
      rw [Int.natAbs_ofNat]; exact hr
    · simp only [if_true]
      rw [if_neg (by omega)]
      rw [show decide (-1 * ((m * 2 ^ (e - -149).toNat : Nat) : Int) < 0) = true by
        simp only [decide_eq_true_eq]; omega]
      rw [show (-1 * ((m * 2 ^ (e - -149).toNat : Nat) : Int)).natAbs =
        m * 2 ^ (e - -149).toNat by omega]
      exact hr


theorem near_add_zero (x y z : F32) (hx : x.isFinite = true) (h : Near y x)
    (hz : ∃ t, z = finite t 0 (-149)) : Near (y + z) x := by
  obtain ⟨t, rfl⟩ := hz
  rcases h with rfl | ⟨h0, u, rfl⟩
  · rcases add_zero_finite y t hx with h | ⟨h0, u, h⟩
    · exact Or.inl h
    · exact Or.inr ⟨h0, u, h⟩
  · exact Or.inr ⟨h0, _, zero_add_zero u t⟩

theorem near_zero_add (x z : F32) (hx : x.isFinite = true)
    (hz : ∃ t, z = finite t 0 (-149)) : Near (z + x) x := by
  obtain ⟨t, rfl⟩ := hz
  rcases zero_add_finite x t hx with h | ⟨h0, u, h⟩
  · exact Or.inl h
  · exact Or.inr ⟨h0, u, h⟩

theorem zero_add_zero_ex (y z : F32) (hy : ∃ t, y = finite t 0 (-149))
    (hz : ∃ t, z = finite t 0 (-149)) : ∃ t, y + z = finite t 0 (-149) := by
  obtain ⟨t, rfl⟩ := hy
  obtain ⟨u, rfl⟩ := hz
  exact ⟨_, zero_add_zero t u⟩

theorem eq_of_near (x y : F32) (hx : x.isFinite = true) (h : Near y x) : eq y x = true := by
  obtain ⟨s, m, e, rfl, -⟩ := (isFinite_iff x).1 hx
  rcases h with rfl | ⟨h0, u, rfl⟩
  · simp [eq]
  · have : m = 0 := of_decide_eq_true h0
    simp [eq, this]

theorem pick0 (x z1 z2 z3 : F32) (hx : x.isFinite = true) (h1 : ∃ t, z1 = finite t 0 (-149))
    (h2 : ∃ t, z2 = finite t 0 (-149)) (h3 : ∃ t, z3 = finite t 0 (-149)) :
    eq (x + z1 + z2 + z3) x = true :=
  eq_of_near x _ hx (near_add_zero x _ _ hx
    (near_add_zero x _ _ hx (near_add_zero x _ _ hx (Or.inl rfl) h1) h2) h3)

theorem pick1 (x z0 z2 z3 : F32) (hx : x.isFinite = true) (h0 : ∃ t, z0 = finite t 0 (-149))
    (h2 : ∃ t, z2 = finite t 0 (-149)) (h3 : ∃ t, z3 = finite t 0 (-149)) :
    eq (z0 + x + z2 + z3) x = true :=
  eq_of_near x _ hx (near_add_zero x _ _ hx
    (near_add_zero x _ _ hx (near_zero_add x _ hx h0) h2) h3)

theorem pick2 (x z0 z1 z3 : F32) (hx : x.isFinite = true) (h0 : ∃ t, z0 = finite t 0 (-149))
    (h1 : ∃ t, z1 = finite t 0 (-149)) (h3 : ∃ t, z3 = finite t 0 (-149)) :
    eq (z0 + z1 + x + z3) x = true :=
  eq_of_near x _ hx (near_add_zero x _ _ hx
    (near_zero_add x _ hx (zero_add_zero_ex _ _ h0 h1)) h3)

theorem pick3 (x z0 z1 z2 : F32) (hx : x.isFinite = true) (h0 : ∃ t, z0 = finite t 0 (-149))
    (h1 : ∃ t, z1 = finite t 0 (-149)) (h2 : ∃ t, z2 = finite t 0 (-149)) :
    eq (z0 + z1 + z2 + x) x = true :=
  eq_of_near x _ hx
    (near_zero_add x _ hx (zero_add_zero_ex _ _ (zero_add_zero_ex _ _ h0 h1) h2))

end F32

/-! ## Theorems: matrix helpers -/

section MatrixTheorems

variable {α : Type} [CommRing α]

/-- `applyVec` is the matrix-vector product of the column-major reading:
`(M v)_r = Σ_c M(r,c) * v_c` with `M(r,c)` stored at index `4*c + r`. -/
theorem applyVec_eq_sum (m : Mat4 α) (v : Fin 4 → α) (r : Fin 4) :
    applyVec m v r = ∑ c : Fin 4, entry m r c * v c := by
  fin_cases r <;> simp only [Fin.sum_univ_four] <;> rfl

/-- In exact arithmetic `mat4mult a b` is the standard product of the column-major matrices:
entry `(r, c)` is `Σ_k a(r,k) * b(k,c)`, and applying the product to a column
vector is applying `b` first and then `a`. -/
theorem mat4mult_exact (a b : Mat4 α) :
    (∀ r c : Fin 4, mat4mult a b (idx r c) = ∑ k : Fin 4, a (idx r k) * b (idx k c)) ∧
    (∀ v : Fin 4 → α, applyVec (mat4mult a b) v = applyVec a (applyVec b v)) := by
  constructor
  · intro r c
    fin_cases r <;> fin_cases c <;> simp only [Fin.sum_univ_four] <;> rfl
  · intro v
    apply ext4 <;>
      simp only [applyVec, mat4mult, vec4_0, vec4_1, vec4_2, vec4_3, vec16_0, vec16_1, vec16_2,
        vec16_3, vec16_4, vec16_5, vec16_6, vec16_7, vec16_8, vec16_9, vec16_10, vec16_11,
        vec16_12, vec16_13, vec16_14, vec16_15] <;> ring

/-- In exact arithmetic `mat4identity` is a left and right identity of `mat4mult`. -/
theorem mat4identity_exact (m : Mat4 α) :
    mat4mult mat4identity m = m ∧ mat4mult m mat4identity = m := by
  constructor <;> apply ext16 <;>
    simp only [mat4mult, mat4identity, vec16_0, vec16_1, vec16_2, vec16_3, vec16_4, vec16_5, vec16_6, vec16_7,
      vec16_8, vec16_9, vec16_10, vec16_11, vec16_12, vec16_13, vec16_14, vec16_15] <;> ring

/-- C3: `mat4mult` is associative (entries in a commutative ring, e.g. exact reals). -/
theorem mat4mult_assoc (A B C : Mat4 α) :
    mat4mult (mat4mult A B) C = mat4mult A (mat4mult B C) := by
  apply ext16 <;>
    simp only [mat4mult, vec16_0, vec16_1, vec16_2, vec16_3, vec16_4, vec16_5, vec16_6, vec16_7,
      vec16_8, vec16_9, vec16_10, vec16_11, vec16_12, vec16_13, vec16_14, vec16_15] <;> ring

/-- C4: `mat4translate x y z` applied to the homogeneous point `(px, py, pz, 1)` gives
`(px + x, py + y, pz + z, 1)`, and `mat4translate 0 0 0` is `mat4identity`. -/
theorem mat4translate_adds_offset (x y z px py pz : α) :
    applyVec (mat4translate x y z) ![px, py, pz, 1] = ![px + x, py + y, pz + z, 1] ∧
    (mat4translate 0 0 0 : Mat4 α) = mat4identity := by
  constructor
  · apply ext4 <;>
      simp only [applyVec, mat4translate, vec4_0, vec4_1, vec4_2, vec4_3, vec16_0, vec16_1, vec16_2, vec16_3, vec16_4, vec16_5, vec16_6, vec16_7,
      vec16_8, vec16_9, vec16_10, vec16_11, vec16_12, vec16_13, vec16_14, vec16_15] <;> ring
  · rfl

/-- In exact arithmetic `mat4mult` keeps the bottom row `(0, 0, 0, 1)`. -/
theorem mat4mult_affine_exact (a b : Mat4 α) (ha : IsAffine a) (hb : IsAffine b) :
    IsAffine (mat4mult a b) := by
  obtain ⟨a3, a7, a11, a15⟩ := ha
  obtain ⟨b3, b7, b11, b15⟩ := hb
  refine ⟨?_, ?_, ?_, ?_⟩ <;>
    simp only [mat4mult, vec16_0, vec16_1, vec16_2, vec16_3, vec16_4, vec16_5, vec16_6, vec16_7,
      vec16_8, vec16_9, vec16_10, vec16_11, vec16_12, vec16_13, vec16_14, vec16_15, a3, a7, a11, a15, b3, b7, b11, b15] <;> ring

end MatrixTheorems

/-! ## Theorems: the matrix helpers in `float` and in exact arithmetic -/

section FloatMatrixTheorems

open F32

theorem dot_unit_left0 (x0 x1 x2 x3 : F32) (h0 : x0.isFinite = true)
    (h1 : x1.isFinite = true) (h2 : x2.isFinite = true) (h3 : x3.isFinite = true) :
    F32.eq (1 * x0 + 0 * x1 + 0 * x2 + 0 * x3) x0 = true := by
  rw [one_mul_finite x0 h0]
  exact pick0 x0 _ _ _ h0 (zero_mul_finite x1 h1) (zero_mul_finite x2 h2)
    (zero_mul_finite x3 h3)

theorem dot_unit_left1 (x0 x1 x2 x3 : F32) (h0 : x0.isFinite = true)
    (h1 : x1.isFinite = true) (h2 : x2.isFinite = true) (h3 : x3.isFinite = true) :
    F32.eq (0 * x0 + 1 * x1 + 0 * x2 + 0 * x3) x1 = true := by
  rw [one_mul_finite x1 h1]
  exact pick1 x1 _ _ _ h1 (zero_mul_finite x0 h0) (zero_mul_finite x2 h2)
    (zero_mul_finite x3 h3)

theorem dot_unit_left2 (x0 x1 x2 x3 : F32) (h0 : x0.isFinite = true)
    (h1 : x1.isFinite = true) (h2 : x2.isFinite = true) (h3 : x3.isFinite = true) :
    F32.eq (0 * x0 + 0 * x1 + 1 * x2 + 0 * x3) x2 = true := by
  rw [one_mul_finite x2 h2]
  exact pick2 x2 _ _ _ h2 (zero_mul_finite x0 h0) (zero_mul_finite x1 h1)
    (zero_mul_finite x3 h3)

theorem dot_unit_left3 (x0 x1 x2 x3 : F32) (h0 : x0.isFinite = true)
    (h1 : x1.isFinite = true) (h2 : x2.isFinite = true) (h3 : x3.isFinite = true) :
    F32.eq (0 * x0 + 0 * x1 + 0 * x2 + 1 * x3) x3 = true := by
  rw [one_mul_finite x3 h3]
  exact pick3 x3 _ _ _ h3 (zero_mul_finite x0 h0) (zero_mul_finite x1 h1)
    (zero_mul_finite x2 h2)

theorem dot_unit_right0 (x0 x1 x2 x3 : F32) (h0 : x0.isFinite = true)
    (h1 : x1.isFinite = true) (h2 : x2.isFinite = true) (h3 : x3.isFinite = true) :
    F32.eq (x0 * 1 + x1 * 0 + x2 * 0 + x3 * 0) x0 = true := by
  rw [mul_one_finite x0 h0]
  exact pick0 x0 _ _ _ h0 (mul_zero_finite x1 h1) (mul_zero_finite x2 h2)
    (mul_zero_finite x3 h3)

theorem dot_unit_right1 (x0 x1 x2 x3 : F32) (h0 : x0.isFinite = true)
    (h1 : x1.isFinite = true) (h2 : x2.isFinite = true) (h3 : x3.isFinite = true) :
    F32.eq (x0 * 0 + x1 * 1 + x2 * 0 + x3 * 0) x1 = true := by
  rw [mul_one_finite x1 h1]
  exact pick1 x1 _ _ _ h1 (mul_zero_finite x0 h0) (mul_zero_finite x2 h2)
    (mul_zero_finite x3 h3)

theorem dot_unit_right2 (x0 x1 x2 x3 : F32) (h0 : x0.isFinite = true)
    (h1 : x1.isFinite = true) (h2 : x2.isFinite = true) (h3 : x3.isFinite = true) :
    F32.eq (x0 * 0 + x1 * 0 + x2 * 1 + x3 * 0) x2 = true := by
  rw [mul_one_finite x2 h2]
  exact pick2 x2 _ _ _ h2 (mul_zero_finite x0 h0) (mul_zero_finite x1 h1)
    (mul_zero_finite x3 h3)

theorem dot_unit_right3 (x0 x1 x2 x3 : F32) (h0 : x0.isFinite = true)
    (h1 : x1.isFinite = true) (h2 : x2.isFinite = true) (h3 : x3.isFinite = true) :
    F32.eq (x0 * 0 + x1 * 0 + x2 * 0 + x3 * 1) x3 = true := by
  rw [mul_one_finite x3 h3]
  exact pick3 x3 _ _ _ h3 (mul_zero_finite x0 h0) (mul_zero_finite x1 h1)
    (mul_zero_finite x2 h2)

theorem mat4identity_mul_float (M : Mat4 F32) (h : ∀ i, (M i).isFinite = true) :
    ∀ i, F32.eq (mat4mult mat4identity M i) (M i) = true := by
  refine forall_fin16 _ ?_ ?_ ?_ ?_ ?_ ?_ ?_ ?_ ?_ ?_ ?_ ?_ ?_ ?_ ?_ ?_
  · simp only [mat4mult, mat4identity, vec16_0]
    exact dot_unit_left0 (M 0) (M 1) (M 2) (M 3) (h 0) (h 1) (h 2)
      (h 3)
  · simp only [mat4mult, mat4identity, vec16_1]
    exact dot_unit_left1 (M 0) (M 1) (M 2) (M 3) (h 0) (h 1) (h 2)
      (h 3)
  · simp only [mat4mult, mat4identity, vec16_2]
    exact dot_unit_left2 (M 0) (M 1) (M 2) (M 3) (h 0) (h 1) (h 2)
      (h 3)
  · simp only [mat4mult, mat4identity, vec16_3]
    exact dot_unit_left3 (M 0) (M 1) (M 2) (M 3) (h 0) (h 1) (h 2)
      (h 3)
  · simp only [mat4mult, mat4identity, vec16_4]
    exact dot_unit_left0 (M 4) (M 5) (M 6) (M 7) (h 4) (h 5) (h 6)
      (h 7)
  · simp only [mat4mult, mat4identity, vec16_5]
    exact dot_unit_left1 (M 4) (M 5) (M 6) (M 7) (h 4) (h 5) (h 6)
      (h 7)
  · simp only [mat4mult, mat4identity, vec16_6]
    exact dot_unit_left2 (M 4) (M 5) (M 6) (M 7) (h 4) (h 5) (h 6)
      (h 7)
  · simp only [mat4mult, mat4identity, vec16_7]
    exact dot_unit_left3 (M 4) (M 5) (M 6) (M 7) (h 4) (h 5) (h 6)
      (h 7)
  · simp only [mat4mult, mat4identity, vec16_8]
    exact dot_unit_left0 (M 8) (M 9) (M 10) (M 11) (h 8) (h 9) (h 10)
      (h 11)
  · simp only [mat4mult, mat4identity, vec16_9]
    exact dot_unit_left1 (M 8) (M 9) (M 10) (M 11) (h 8) (h 9) (h 10)
      (h 11)
  · simp only [mat4mult, mat4identity, vec16_10]
    exact dot_unit_left2 (M 8) (M 9) (M 10) (M 11) (h 8) (h 9) (h 10)
      (h 11)
  · simp only [mat4mult, mat4identity, vec16_11]
    exact dot_unit_left3 (M 8) (M 9) (M 10) (M 11) (h 8) (h 9) (h 10)
      (h 11)
  · simp only [mat4mult, mat4identity, vec16_12]
    exact dot_unit_left0 (M 12) (M 13) (M 14) (M 15) (h 12) (h 13) (h 14)
      (h 15)
  · simp only [mat4mult, mat4identity, vec16_13]
    exact dot_unit_left1 (M 12) (M 13) (M 14) (M 15) (h 12) (h 13) (h 14)
      (h 15)
  · simp only [mat4mult, mat4identity, vec16_14]
    exact dot_unit_left2 (M 12) (M 13) (M 14) (M 15) (h 12) (h 13) (h 14)
      (h 15)
  · simp only [mat4mult, mat4identity, vec16_15]
    exact dot_unit_left3 (M 12) (M 13) (M 14) (M 15) (h 12) (h 13) (h 14)
      (h 15)

theorem mat4mul_identity_float (M : Mat4 F32) (h : ∀ i, (M i).isFinite = true) :
    ∀ i, F32.eq (mat4mult M mat4identity i) (M i) = true := by
  refine forall_fin16 _ ?_ ?_ ?_ ?_ ?_ ?_ ?_ ?_ ?_ ?_ ?_ ?_ ?_ ?_ ?_ ?_
  · simp only [mat4mult, mat4identity, vec16_0]
    exact dot_unit_right0 (M 0) (M 4) (M 8) (M 12) (h 0) (h 4) (h 8)
      (h 12)
  · simp only [mat4mult, mat4identity, vec16_1]
    exact dot_unit_right0 (M 1) (M 5) (M 9) (M 13) (h 1) (h 5) (h 9)
      (h 13)
  · simp only [mat4mult, mat4identity, vec16_2]
    exact dot_unit_right0 (M 2) (M 6) (M 10) (M 14) (h 2) (h 6) (h 10)
      (h 14)
  · simp only [mat4mult, mat4identity, vec16_3]
    exact dot_unit_right0 (M 3) (M 7) (M 11) (M 15) (h 3) (h 7) (h 11)
      (h 15)
  · simp only [mat4mult, mat4identity, vec16_4]
    exact dot_unit_right1 (M 0) (M 4) (M 8) (M 12) (h 0) (h 4) (h 8)
      (h 12)
  · simp only [mat4mult, mat4identity, vec16_5]
    exact dot_unit_right1 (M 1) (M 5) (M 9) (M 13) (h 1) (h 5) (h 9)
      (h 13)
  · simp only [mat4mult, mat4identity, vec16_6]
    exact dot_unit_right1 (M 2) (M 6) (M 10) (M 14) (h 2) (h 6) (h 10)
      (h 14)
  · simp only [mat4mult, mat4identity, vec16_7]
    exact dot_unit_right1 (M 3) (M 7) (M 11) (M 15) (h 3) (h 7) (h 11)
      (h 15)
  · simp only [mat4mult, mat4identity, vec16_8]
    exact dot_unit_right2 (M 0) (M 4) (M 8) (M 12) (h 0) (h 4) (h 8)
      (h 12)
  · simp only [mat4mult, mat4identity, vec16_9]
    exact dot_unit_right2 (M 1) (M 5) (M 9) (M 13) (h 1) (h 5) (h 9)
      (h 13)
  · simp only [mat4mult, mat4identity, vec16_10]
    exact dot_unit_right2 (M 2) (M 6) (M 10) (M 14) (h 2) (h 6) (h 10)
      (h 14)
  · simp only [mat4mult, mat4identity, vec16_11]
    exact dot_unit_right2 (M 3) (M 7) (M 11) (M 15) (h 3) (h 7) (h 11)
      (h 15)
  · simp only [mat4mult, mat4identity, vec16_12]
    exact dot_unit_right3 (M 0) (M 4) (M 8) (M 12) (h 0) (h 4) (h 8)
      (h 12)
  · simp only [mat4mult, mat4identity, vec16_13]
    exact dot_unit_right3 (M 1) (M 5) (M 9) (M 13) (h 1) (h 5) (h 9)
      (h 13)
  · simp only [mat4mult, mat4identity, vec16_14]
    exact dot_unit_right3 (M 2) (M 6) (M 10) (M 14) (h 2) (h 6) (h 10)
      (h 14)
  · simp only [mat4mult, mat4identity, vec16_15]
    exact dot_unit_right3 (M 3) (M 7) (M 11) (M 15) (h 3) (h 7) (h 11)
      (h 15)


theorem bottom_zero (x y z : F32) (hx : x.isFinite = true) (hy : y.isFinite = true)
    (hz : z.isFinite = true) : 0 * x + 0 * y + 0 * z + 1 * 0 = (0 : F32) := by
  obtain ⟨t, ht⟩ := zero_add_zero_ex _ _ (zero_add_zero_ex _ _ (zero_mul_finite x hx)
    (zero_mul_finite y hy)) (zero_mul_finite z hz)
  rw [ht, show (1 : F32) * 0 = F32.finite false 0 (-149) by decide, zero_add_zero,
    Bool.and_false]
  rfl

theorem bottom_one (x y z : F32) (hx : x.isFinite = true) (hy : y.isFinite = true)
    (hz : z.isFinite = true) : 0 * x + 0 * y + 0 * z + 1 * 1 = (1 : F32) := by
  obtain ⟨t, ht⟩ := zero_add_zero_ex _ _ (zero_add_zero_ex _ _ (zero_mul_finite x hx)
    (zero_mul_finite y hy)) (zero_mul_finite z hz)
  rw [ht, show (1 : F32) * 1 = 1 by decide]
  rcases zero_add_finite 1 t (by decide) with h | ⟨h, -⟩
  · exact h
  · exact absurd h (by decide)

theorem mat4mult_affine_float (a b : Mat4 F32) (ha : IsAffine a) (hb : IsAffine b)
    (h : ∀ i, (b i).isFinite = true) : IsAffine (mat4mult a b) := by
  obtain ⟨a3, a7, a11, a15⟩ := ha
  obtain ⟨b3, b7, b11, b15⟩ := hb
  refine ⟨?_, ?_, ?_, ?_⟩
  · simp only [mat4mult, vec16_3, a3, a7, a11, a15, b3]
    exact bottom_zero _ _ _ (h 0) (h 1) (h 2)
  · simp only [mat4mult, vec16_7, a3, a7, a11, a15, b7]
    exact bottom_zero _ _ _ (h 4) (h 5) (h 6)
  · simp only [mat4mult, vec16_11, a3, a7, a11, a15, b11]
    exact bottom_zero _ _ _ (h 8) (h 9) (h 10)
  · simp only [mat4mult, vec16_15, a3, a7, a11, a15, b15]
    exact bottom_one _ _ _ (h 12) (h 13) (h 14)

/-- C1 (amended): in every arithmetic, binary32 included, entry `4*c + r` of
`mat4mult a b` is `a[r]*b[4c] + a[4+r]*b[4c+1] + a[8+r]*b[4c+2] + a[12+r]*b[4c+3]`
evaluated left to right in that arithmetic; with entries in exact arithmetic this
is the standard product `Σ_k a(r,k) * b(k,c)`, and applying the product to a
column vector is applying `b` first and then `a`. -/
theorem mat4mult_is_matrix_product :
    (∀ (β : Type) [Add β] [Mul β] (a b : Mat4 β) (r c : Fin 4),
      mat4mult a b (idx r c) =
        a (idx r 0) * b (idx 0 c) + a (idx r 1) * b (idx 1 c) + a (idx r 2) * b (idx 2 c) +
          a (idx r 3) * b (idx 3 c)) ∧
    (∀ (α : Type) [CommRing α] (a b : Mat4 α),
      (∀ r c : Fin 4, mat4mult a b (idx r c) = ∑ k : Fin 4, a (idx r k) * b (idx k c)) ∧
      (∀ v : Fin 4 → α, applyVec (mat4mult a b) v = applyVec a (applyVec b v))) := by
  refine ⟨?_, fun _ _ a b => mat4mult_exact a b⟩
  intro β _ _ a b r c
  fin_cases r <;> fin_cases c <;> rfl

set_option maxRecDepth 10000 in
/-- C1 (counterexample, binary32): with first row `(1e8, 1, -1e8, 0)` and first column
`(1, 1, 1, 0)`, all entries finite, entry 0 of `mat4mult` is `0` while the sum
`Σ_k a(0,k) * b(k,0)` of the exact values is `1`; and with `a = b = mat4scale 3`
and `v = (8388609, 0, 0, 0)`, applying `mat4mult a b` to `v` gives `75497480`
where applying `b` and then `a` gives `75497488`. -/
theorem mat4mult_float_not_exact :
    (∀ i, (cancellingRow i).isFinite = true ∧ (onesColumn i).isFinite = true) ∧
    mat4mult cancellingRow onesColumn (idx 0 0) = 0 ∧
    (mat4mult cancellingRow onesColumn (idx 0 0)).toRat = 0 ∧
    (∑ k : Fin 4, (cancellingRow (idx 0 k)).toRat * (onesColumn (idx k 0)).toRat) = 1 ∧
    (∀ i, (mat4scale three i).isFinite = true) ∧ (∀ j, (oddVector j).isFinite = true) ∧
    applyVec (mat4mult (mat4scale three) (mat4scale three)) oddVector 0 =
      F32.finite false 9437185 3 ∧
    applyVec (mat4scale three) (applyVec (mat4scale three) oddVector) 0 =
      F32.finite false 9437186 3 ∧
    applyVec (mat4mult (mat4scale three) (mat4scale three)) oddVector ≠
      applyVec (mat4scale three) (applyVec (mat4scale three) oddVector) := by
  have hentry : mat4mult cancellingRow onesColumn (idx 0 0) = 0 := by decide
  have hl : applyVec (mat4mult (mat4scale three) (mat4scale three)) oddVector 0 =
      F32.finite false 9437185 3 := by decide
  have hr : applyVec (mat4scale three) (applyVec (mat4scale three) oddVector) 0 =
      F32.finite false 9437186 3 := by decide
  refine ⟨by decide, hentry, ?_, ?_, by decide, by decide, hl, hr, ?_⟩
  · rw [hentry]
    show (F32.finite false 0 (-149)).toRat = 0
    norm_num [F32.toRat]
  · have one : (1 : F32).toRat = 1 := by
      show (F32.finite false (2 ^ 23) (-23)).toRat = 1
      norm_num [F32.toRat]
    have zero : (0 : F32).toRat = 0 := by
      show (F32.finite false 0 (-149)).toRat = 0
      norm_num [F32.toRat]
    rw [Fin.sum_univ_four]
    rw [show cancellingRow (idx 0 0) = F32.finite false 12500000 3 from rfl,
      show cancellingRow (idx 0 1) = 1 from rfl,
      show cancellingRow (idx 0 2) = F32.finite true 12500000 3 from rfl,
      show cancellingRow (idx 0 3) = 0 from rfl,
      show onesColumn (idx 0 0) = 1 from rfl, show onesColumn (idx 1 0) = 1 from rfl,
      show onesColumn (idx 2 0) = 1 from rfl, show onesColumn (idx 3 0) = 0 from rfl]
    rw [one, zero]
    norm_num [F32.toRat]
  · intro h
    have h0 := congrFun h 0
    rw [hl, hr] at h0
    exact absurd h0 (by decide)

/-- C2 (amended): `mat4identity` is a left and right identity of `mat4mult` in exact
arithmetic, and in binary32 for every matrix without infinite or NaN entries,
entry by entry under the comparison `==` (a zero may change its sign). -/
theorem mat4identity_two_sided :
    (∀ (α : Type) [CommRing α] (m : Mat4 α),
      mat4mult mat4identity m = m ∧ mat4mult m mat4identity = m) ∧
    (∀ M : Mat4 F32, (∀ i, (M i).isFinite = true) →
      ∀ i, F32.eq (mat4mult mat4identity M i) (M i) = true ∧
        F32.eq (mat4mult M mat4identity i) (M i) = true) :=
  ⟨fun _ _ m => mat4identity_exact m,
    fun M h i => ⟨mat4identity_mul_float M h i, mat4mul_identity_float M h i⟩⟩

set_option maxRecDepth 10000 in
/-- Witness for C2 (amended): the translation by `(3, 3, 3)` in binary32. -/
theorem mat4identity_two_sided_witness :
    (∀ i, ((mat4translate three three three : Mat4 F32) i).isFinite = true) ∧
    ∀ i, F32.eq (mat4mult mat4identity (mat4translate three three three) i)
        ((mat4translate three three three : Mat4 F32) i) = true ∧
      F32.eq (mat4mult (mat4translate three three three) mat4identity i)
        ((mat4translate three three three : Mat4 F32) i) = true :=
  ⟨by decide, mat4identity_two_sided.2 (mat4translate three three three) (by decide)⟩

set_option maxRecDepth 10000 in
/-- C2 (counterexample, binary32): for the matrix with entry 0 equal to `+∞` and all
other entries 5, `mat4mult mat4identity M` has a NaN at indices 1, 2, 3 and
`mat4mult M mat4identity` has a NaN at indices 4, 8, 12, where `M` has 5. -/
theorem identity_times_infinite_entry :
    mat4mult mat4identity infiniteEntry 1 = F32.nan ∧
    mat4mult mat4identity infiniteEntry 2 = F32.nan ∧
    mat4mult mat4identity infiniteEntry 3 = F32.nan ∧
    mat4mult infiniteEntry mat4identity 4 = F32.nan ∧
    mat4mult infiniteEntry mat4identity 8 = F32.nan ∧
    mat4mult infiniteEntry mat4identity 12 = F32.nan ∧
    infiniteEntry 1 = five ∧ infiniteEntry 4 = five ∧
    F32.eq (mat4mult mat4identity infiniteEntry 1) (infiniteEntry 1) = false ∧
    F32.eq (mat4mult infiniteEntry mat4identity 4) (infiniteEntry 4) = false ∧
    mat4mult mat4identity infiniteEntry ≠ infiniteEntry ∧
    mat4mult infiniteEntry mat4identity ≠ infiniteEntry := by
  have h1 : mat4mult mat4identity infiniteEntry 1 = F32.nan := by decide
  have h4 : mat4mult infiniteEntry mat4identity 4 = F32.nan := by decide
  refine ⟨h1, by decide, by decide, h4, by decide, by decide, rfl, rfl, ?_, ?_, ?_, ?_⟩
  · rw [h1]; rfl
  · rw [h4]; rfl
  · intro h
    have := congrFun h 1
    rw [h1] at this
    exact absurd this (by decide)
  · intro h
    have := congrFun h 4
    rw [h4] at this
    exact absurd this (by decide)

/-- C7 (amended): every constructor returns a matrix with bottom row `(0, 0, 0, 1)`,
for all arguments, in every arithmetic (binary32 included, whatever `cos` and
`sin` are); `mat4mult` of two such matrices is again one in exact arithmetic, and
in binary32 whenever the right factor has no infinite or NaN entry. -/
theorem constructors_and_product_affine :
    (∀ (β : Type) [Zero β] [One β] [Neg β],
      IsAffine (mat4identity : Mat4 β) ∧
      (∀ (cos sin : β → β) (angle : β), IsAffine (mat4rotx cos sin angle) ∧
        IsAffine (mat4roty cos sin angle) ∧ IsAffine (mat4rotz cos sin angle)) ∧
      (∀ scale : β, IsAffine (mat4scale scale)) ∧
      (∀ x y z : β, IsAffine (mat4translate x y z))) ∧
    (∀ (α : Type) [CommRing α] (a b : Mat4 α),
      IsAffine a → IsAffine b → IsAffine (mat4mult a b)) ∧
    (∀ a b : Mat4 F32, IsAffine a → IsAffine b → (∀ i, (b i).isFinite = true) →
      IsAffine (mat4mult a b)) := by
  refine ⟨fun β _ _ _ => ⟨⟨rfl, rfl, rfl, rfl⟩, fun _ _ _ => ⟨⟨rfl, rfl, rfl, rfl⟩,
    ⟨rfl, rfl, rfl, rfl⟩, ⟨rfl, rfl, rfl, rfl⟩⟩, fun _ => ⟨rfl, rfl, rfl, rfl⟩,
    fun _ _ _ => ⟨rfl, rfl, rfl, rfl⟩⟩, fun _ _ a b => mat4mult_affine_exact a b,
    mat4mult_affine_float⟩

set_option maxRecDepth 10000 in
/-- Witness for C7 (amended): a translation times a scaling, over `ℤ` and in binary32. -/
theorem constructors_and_product_affine_witness :
    (IsAffine (mat4translate 1 2 3 : Mat4 ℤ) ∧ IsAffine (mat4scale 2 : Mat4 ℤ) ∧
      IsAffine (mat4mult (mat4translate 1 2 3 : Mat4 ℤ) (mat4scale 2))) ∧
    (IsAffine (mat4translate three five big : Mat4 F32) ∧
      IsAffine (mat4scale three : Mat4 F32) ∧
      (∀ i, ((mat4scale three : Mat4 F32) i).isFinite = true) ∧
      IsAffine (mat4mult (mat4translate three five big : Mat4 F32) (mat4scale three))) :=
  ⟨⟨by decide, by decide,
      constructors_and_product_affine.2.1 ℤ (mat4translate 1 2 3) (mat4scale 2)
        (by decide) (by decide)⟩,
    ⟨by decide, by decide, by decide,
      constructors_and_product_affine.2.2 (mat4translate three five big) (mat4scale three)
        (by decide) (by decide) (by decide)⟩⟩

set_option maxRecDepth 10000 in
/-- C7 (counterexample, binary32): `s = mat4scale (2^100)` has finite entries and
bottom row `(0, 0, 0, 1)`, and so has `mat4mult s s` (whose diagonal has
overflowed to `+∞`), but `mat4mult s (mat4mult s s)` has bottom row
`(NaN, NaN, NaN, 1)`. -/
theorem scale_cubed_not_affine :
    (∀ i, (mat4scale big i).isFinite = true) ∧
    IsAffine (mat4scale big) ∧
    IsAffine (mat4mult (mat4scale big) (mat4scale big)) ∧
    mat4mult (mat4scale big) (mat4scale big) 0 = F32.inf false ∧
    mat4mult (mat4scale big) (mat4mult (mat4scale big) (mat4scale big)) 3 = F32.nan ∧
    mat4mult (mat4scale big) (mat4mult (mat4scale big) (mat4scale big)) 7 = F32.nan ∧
    mat4mult (mat4scale big) (mat4mult (mat4scale big) (mat4scale big)) 11 = F32.nan ∧
    mat4mult (mat4scale big) (mat4mult (mat4scale big) (mat4scale big)) 15 = 1 ∧
    ¬ IsAffine (mat4mult (mat4scale big) (mat4mult (mat4scale big) (mat4scale big))) := by
  have h3 : mat4mult (mat4scale big) (mat4mult (mat4scale big) (mat4scale big)) 3 = F32.nan := by
    decide
  refine ⟨by decide, by decide, by decide, by decide, h3, by decide, by decide, by decide, ?_⟩
  intro h
  have := h.1
  rw [h3] at this
  exact absurd this (by decide)

end FloatMatrixTheorems

/-! ## Theorems: rotations over the reals -/

section Rotations

open Real

theorem cyclicPerm_mul_inv {α : Type} [CommRing α] :
    mat4mult (cyclicPerm : Mat4 α) cyclicPermInv = mat4identity ∧
    mat4mult (cyclicPermInv : Mat4 α) cyclicPerm = mat4identity := by
  constructor <;> apply ext16 <;>
    simp only [mat4mult, cyclicPerm, cyclicPermInv, mat4identity, vec16_0, vec16_1, vec16_2, vec16_3, vec16_4, vec16_5, vec16_6, vec16_7,
      vec16_8, vec16_9, vec16_10, vec16_11, vec16_12, vec16_13, vec16_14, vec16_15] <;> ring

/-- What `mat4rotx` is, read column-major: entry `(1,2)` is `sin`, entry `(2,1)` is
`-sin`, and `(0, 1, 0)` is sent to `(0, cos θ, -sin θ)`; the transpose of the
right-handed rotation. -/
theorem mat4rotx_entries {α : Type} [CommRing α] (cos sin : α → α) (θ w : α) :
    entry (mat4rotx cos sin θ) 1 1 = cos θ ∧ entry (mat4rotx cos sin θ) 2 2 = cos θ ∧
    entry (mat4rotx cos sin θ) 1 2 = sin θ ∧ entry (mat4rotx cos sin θ) 2 1 = -sin θ ∧
    applyVec (mat4rotx cos sin θ) ![0, 1, 0, w] = ![0, cos θ, -sin θ, w] := by
  refine ⟨rfl, rfl, rfl, rfl, ?_⟩
  apply ext4 <;>
    simp only [applyVec, mat4rotx, vec4_0, vec4_1, vec4_2, vec4_3, vec16_0, vec16_1, vec16_2, vec16_3, vec16_4, vec16_5, vec16_6, vec16_7,
      vec16_8, vec16_9, vec16_10, vec16_11, vec16_12, vec16_13, vec16_14, vec16_15] <;> ring

/-- C5 (evaluation of the code at `θ = π/2`): read column-major, `mat4rotx (π/2)` has
entry `(1,2) = 1 = sin θ` and entry `(2,1) = -1 = -sin θ`, and sends `(0, 1, 0)` to
`(0, 0, -1)`, where the right-handed convention has `-sin θ`, `sin θ` and `(0, 0, 1)`. -/
theorem mat4rotx_half_pi_left_handed :
    entry (mat4rotx cos sin (π / 2)) 1 2 = 1 ∧
    entry (mat4rotx cos sin (π / 2)) 2 1 = -1 ∧
    applyVec (mat4rotx cos sin (π / 2)) ![0, 1, 0, 0] = ![0, 0, -1, 0] ∧
    entry (mat4rotx cos sin (π / 2)) 1 2 ≠ -sin (π / 2) ∧
    entry (mat4rotx cos sin (π / 2)) 2 1 ≠ sin (π / 2) ∧
    applyVec (mat4rotx cos sin (π / 2)) ![0, 1, 0, 0] ≠ ![0, cos (π / 2), sin (π / 2), 0] := by
  obtain ⟨-, -, h12, h21, hv⟩ := mat4rotx_entries cos sin (π / 2) 0
  rw [sin_pi_div_two, cos_pi_div_two] at hv
  rw [sin_pi_div_two] at h12 h21
  refine ⟨h12, h21, hv, ?_, ?_, ?_⟩
  · rw [h12, sin_pi_div_two]; norm_num
  · rw [h21, sin_pi_div_two]; norm_num
  · rw [hv, sin_pi_div_two, cos_pi_div_two]
    intro h
    have h2 := congrFun h 2
    simp only [vec4_2] at h2
    norm_num at h2

/-- The part of cyclic consistency that the code has: `mat4roty` is `mat4rotx`
conjugated by the cyclic permutation. -/
theorem mat4roty_eq_conj_rotx {α : Type} [CommRing α] (cos sin : α → α) (θ : α) :
    mat4roty cos sin θ = mat4mult (mat4mult cyclicPerm (mat4rotx cos sin θ)) cyclicPermInv := by
  apply ext16 <;>
    simp only [mat4mult, mat4rotx, mat4roty, cyclicPerm, cyclicPermInv, vec16_0, vec16_1, vec16_2, vec16_3, vec16_4, vec16_5, vec16_6, vec16_7,
      vec16_8, vec16_9, vec16_10, vec16_11, vec16_12, vec16_13, vec16_14, vec16_15] <;> ring

/-- What `P · mat4roty θ · P⁻¹` is: the transpose of `mat4rotz θ`. -/
theorem conj_roty_eq {α : Type} [CommRing α] (cos sin : α → α) (θ : α) :
    mat4mult (mat4mult cyclicPerm (mat4roty cos sin θ)) cyclicPermInv =
      ![cos θ, -sin θ, 0, 0,
        sin θ, cos θ, 0, 0,
        0, 0, 1, 0,
        0, 0, 0, 1] := by
  apply ext16 <;>
    simp only [mat4mult, mat4roty, cyclicPerm, cyclicPermInv, vec16_0, vec16_1, vec16_2, vec16_3, vec16_4, vec16_5, vec16_6, vec16_7,
      vec16_8, vec16_9, vec16_10, vec16_11, vec16_12, vec16_13, vec16_14, vec16_15] <;> ring

/-- C6 (evaluation of the code at `θ = π/2`): `mat4roty` is the cyclic permutation of
`mat4rotx`, but `mat4rotz` is not the cyclic permutation of `mat4roty`: the `sin`
entry in the cyclic position (row of the next axis, column of the one after) is
`+1` in `mat4rotx` and `mat4roty` and `-1` in `mat4rotz`. -/
theorem mat4rotz_half_pi_not_cyclic :
    mat4roty cos sin (π / 2) =
      mat4mult (mat4mult cyclicPerm (mat4rotx cos sin (π / 2))) cyclicPermInv ∧
    mat4rotz cos sin (π / 2) ≠
      mat4mult (mat4mult cyclicPerm (mat4roty cos sin (π / 2))) cyclicPermInv ∧
    entry (mat4rotx cos sin (π / 2)) 1 2 = 1 ∧
    entry (mat4roty cos sin (π / 2)) 2 0 = 1 ∧
    entry (mat4rotz cos sin (π / 2)) 0 1 = -1 := by
  refine ⟨mat4roty_eq_conj_rotx cos sin _, ?_, ?_, ?_, ?_⟩
  · rw [conj_roty_eq]
    intro h
    have h1 := congrFun h 1
    simp only [mat4rotz, vec16_1, sin_pi_div_two] at h1
    norm_num at h1
  · show sin (π / 2) = 1
    exact sin_pi_div_two
  · show sin (π / 2) = 1
    exact sin_pi_div_two
  · show -sin (π / 2) = -1
    rw [sin_pi_div_two]

/-- C10: each rotation constructor turns angle addition into `mat4mult`, sends `0` to
`mat4identity`, and `rot a` times `rot (-a)` is `mat4identity` (exact reals). -/
theorem rotations_are_homomorphisms (a b : ℝ) :
    (mat4mult (mat4rotx cos sin a) (mat4rotx cos sin b) = mat4rotx cos sin (a + b) ∧
      mat4rotx cos sin 0 = mat4identity ∧
      mat4mult (mat4rotx cos sin a) (mat4rotx cos sin (-a)) = mat4identity) ∧
    (mat4mult (mat4roty cos sin a) (mat4roty cos sin b) = mat4roty cos sin (a + b) ∧
      mat4roty cos sin 0 = mat4identity ∧
      mat4mult (mat4roty cos sin a) (mat4roty cos sin (-a)) = mat4identity) ∧
    (mat4mult (mat4rotz cos sin a) (mat4rotz cos sin b) = mat4rotz cos sin (a + b) ∧
      mat4rotz cos sin 0 = mat4identity ∧
      mat4mult (mat4rotz cos sin a) (mat4rotz cos sin (-a)) = mat4identity) := by
  have hx : ∀ s t : ℝ,
      mat4mult (mat4rotx cos sin s) (mat4rotx cos sin t) = mat4rotx cos sin (s + t) := by
    intro s t
    apply ext16 <;>
      simp only [mat4mult, mat4rotx, vec16_0, vec16_1, vec16_2, vec16_3, vec16_4, vec16_5, vec16_6, vec16_7,
      vec16_8, vec16_9, vec16_10, vec16_11, vec16_12, vec16_13, vec16_14, vec16_15, cos_add, sin_add] <;> ring
  have hy : ∀ s t : ℝ,
      mat4mult (mat4roty cos sin s) (mat4roty cos sin t) = mat4roty cos sin (s + t) := by
    intro s t
    apply ext16 <;>
      simp only [mat4mult, mat4roty, vec16_0, vec16_1, vec16_2, vec16_3, vec16_4, vec16_5, vec16_6, vec16_7,
      vec16_8, vec16_9, vec16_10, vec16_11, vec16_12, vec16_13, vec16_14, vec16_15, cos_add, sin_add] <;> ring
  have hz : ∀ s t : ℝ,
      mat4mult (mat4rotz cos sin s) (mat4rotz cos sin t) = mat4rotz cos sin (s + t) := by
    intro s t
    apply ext16 <;>
      simp only [mat4mult, mat4rotz, vec16_0, vec16_1, vec16_2, vec16_3, vec16_4, vec16_5, vec16_6, vec16_7,
      vec16_8, vec16_9, vec16_10, vec16_11, vec16_12, vec16_13, vec16_14, vec16_15, cos_add, sin_add] <;> ring
  have x0 : mat4rotx cos sin 0 = mat4identity := by
    simp only [mat4rotx, mat4identity, cos_zero, sin_zero, neg_zero]
  have y0 : mat4roty cos sin 0 = mat4identity := by
    simp only [mat4roty, mat4identity, cos_zero, sin_zero, neg_zero]
  have z0 : mat4rotz cos sin 0 = mat4identity := by
    simp only [mat4rotz, mat4identity, cos_zero, sin_zero, neg_zero]
  refine ⟨⟨hx a b, x0, ?_⟩, ⟨hy a b, y0, ?_⟩, ⟨hz a b, z0, ?_⟩⟩
  · rw [hx, add_neg_cancel, x0]
  · rw [hy, add_neg_cancel, y0]
  · rw [hz, add_neg_cancel, z0]

end Rotations

/-! ## Theorems: the render loop -/

section LoopTheorems

variable {α : Type} [Field α]

open Call

theorem renderLoop_eq (m : Mock α) :
    ∀ (k i fuel : Nat) (flag : Bool), flag = closeFlagAt m i →
      (∀ j, j < k → closeFlagAt m (i + j) = false) → closeFlagAt m (i + k) = true →
      k < fuel → renderLoop m fuel i flag = some (loopTrace m i k) := by
  intro k
  induction k with
  | zero =>
    intro i fuel flag hflag _ hclose hfuel
    obtain ⟨f, rfl⟩ : ∃ f, fuel = f + 1 := ⟨fuel - 1, by omega⟩
    have : flag = true := by rw [hflag]; simpa using hclose
    simp [renderLoop, loopTrace, this]
  | succ k ih =>
    intro i fuel flag hflag hopen hclose hfuel
    obtain ⟨f, rfl⟩ : ∃ f, fuel = f + 1 := ⟨fuel - 1, by omega⟩
    have h0 : flag = false := by rw [hflag]; simpa using hopen 0 (Nat.succ_pos k)
    have hrec := ih (i + 1) f (m.closeRequested i || m.escapePressed i) rfl
      (fun j hj => by
        have h := hopen (j + 1) (by omega)
        have e : i + (j + 1) = i + 1 + j := by omega
        rwa [e] at h)
      (by
        have e : i + (k + 1) = i + 1 + k := by omega
        rwa [e] at hclose)
      (by omega)
    simp [renderLoop, loopTrace, h0, hrec]

theorem main_eq (m : Mock α) (n fuel : Nat) (hw : m.windowOpens = true)
    (hg : m.glewInitOk = true) (hrun : RunsExactly m n) (hfuel : n < fuel) :
    main m fuel = some (openWindowCalls ++ [glfwMakeContextCurrent, glewInit] ++ setupCalls m ++
      loopTrace m 0 n ++ shutdownCalls m, 0) := by
  have hloop := renderLoop_eq m n 0 fuel m.shouldCloseAtStart rfl
    (fun j hj => by simpa using hrun.1 j hj) (by simpa using hrun.2) hfuel
  simp [main, hw, hg, hloop]

theorem countP_loopTrace (m : Mock α) (p : Call α → Bool) (c : Nat)
    (hp : ∀ b, p (glfwWindowShouldClose b) = false)
    (hframe : ∀ i, List.countP p (frame m i) = c) :
    ∀ k i, List.countP p (loopTrace m i k) = k * c := by
  intro k
  induction k with
  | zero => intro i; simp [loopTrace, List.countP_cons, hp]
  | succ k ih =>
    intro i
    simp only [loopTrace, List.countP_cons, List.countP_append, hp, hframe, ih]
    simp [Nat.succ_mul, Nat.add_comm]

theorem countP_frame_matrixWrite (m : Mock α) (loc : Int) (i : Nat) :
    List.countP (isMatrixWrite loc) (frame m i) =
      (if m.uniformLocation "E" = loc then 1 else 0) +
      (if m.uniformLocation "OT" = loc then 1 else 0) +
      (if m.uniformLocation "R" = loc then 1 else 0) := by
  cases h : m.escapePressed i <;>
    simp [frame, List.countP_cons, List.countP_append, isMatrixWrite, h] <;> omega

theorem countP_frame_floatWrite (m : Mock α) (loc : Int) (i : Nat) :
    List.countP (isFloatWrite loc) (frame m i) =
      (if m.uniformLocation "time" = loc then 1 else 0) := by
  cases h : m.escapePressed i <;>
    simp [frame, List.countP_cons, List.countP_append, isFloatWrite, h]

theorem countP_frame_meshRender (m : Mock α) (i : Nat) :
    List.countP isMeshRender (frame m i) = 1 := by
  cases h : m.escapePressed i <;>
    simp [frame, List.countP_cons, List.countP_append, isMeshRender, h]

theorem countP_frame_drawElements (m : Mock α) (i : Nat) :
    List.countP isDrawElements (frame m i) = 1 := by
  cases h : m.escapePressed i <;>
    simp [frame, List.countP_cons, List.countP_append, isDrawElements, h]

theorem countP_frame_drawCall (m : Mock α) (i : Nat) :
    List.countP isDrawCall (frame m i) = 2 := by
  cases h : m.escapePressed i <;>
    simp [frame, List.countP_cons, List.countP_append, isDrawCall, isMeshRender,
      isDrawElements, h]

theorem countP_frame_present (m : Mock α) (i : Nat) :
    List.countP isPresent (frame m i) = 1 := by
  cases h : m.escapePressed i <;>
    simp [frame, List.countP_cons, List.countP_append, isPresent, h]

theorem countP_frame_release (m : Mock α) (i : Nat) :
    List.countP isRelease (frame m i) = 0 := by
  cases h : m.escapePressed i <;>
    simp [frame, List.countP_cons, List.countP_append, isRelease, h]

theorem countP_frame_deleteBuffer (m : Mock α) (name i : Nat) :
    List.countP (isDeleteBuffer name) (frame m i) = 0 := by
  cases h : m.escapePressed i <;>
    simp [frame, List.countP_cons, List.countP_append, isDeleteBuffer, h]

theorem countP_frame_deleteVertexArray (m : Mock α) (name i : Nat) :
    List.countP (isDeleteVertexArray name) (frame m i) = 0 := by
  cases h : m.escapePressed i <;>
    simp [frame, List.countP_cons, List.countP_append, isDeleteVertexArray, h]

theorem countP_frame_log (m : Mock α) (i : Nat) :
    List.countP isLog (frame m i) = 0 := by
  cases h : m.escapePressed i <;>
    simp [frame, List.countP_cons, List.countP_append, isLog, h]

/-- The calls before the loop: none is a matrix write, a scalar write, a draw, a
present or a release, and the only console entry is the warning for `time`. -/
theorem countP_beforeLoop (m : Mock α) (loc : Int) (name : Nat) :
    List.countP (isMatrixWrite loc)
      (openWindowCalls ++ [glfwMakeContextCurrent, glewInit] ++ setupCalls m) = 0 ∧
    List.countP (isFloatWrite loc)
      (openWindowCalls ++ [glfwMakeContextCurrent, glewInit] ++ setupCalls m) = 0 ∧
    List.countP isMeshRender
      (openWindowCalls ++ [glfwMakeContextCurrent, glewInit] ++ setupCalls m) = 0 ∧
    List.countP isDrawElements
      (openWindowCalls ++ [glfwMakeContextCurrent, glewInit] ++ setupCalls m) = 0 ∧
    List.countP isDrawCall
      (openWindowCalls ++ [glfwMakeContextCurrent, glewInit] ++ setupCalls m) = 0 ∧
    List.countP isPresent
      (openWindowCalls ++ [glfwMakeContextCurrent, glewInit] ++ setupCalls m) = 0 ∧
    List.countP isRelease
      (openWindowCalls ++ [glfwMakeContextCurrent, glewInit] ++ setupCalls m) = 0 ∧
    List.countP (isDeleteBuffer name)
      (openWindowCalls ++ [glfwMakeContextCurrent, glewInit] ++ setupCalls m) = 0 ∧
    List.countP (isDeleteVertexArray name)
      (openWindowCalls ++ [glfwMakeContextCurrent, glewInit] ++ setupCalls m) = 0 ∧
    List.countP isLog
      (openWindowCalls ++ [glfwMakeContextCurrent, glewInit] ++ setupCalls m) =
        (if m.uniformLocation "time" = -1 then 1 else 0) := by
  refine ⟨?_, ?_, ?_, ?_, ?_, ?_, ?_, ?_, ?_, ?_⟩ <;>
    by_cases h : m.uniformLocation "time" = -1 <;>
    simp [openWindowCalls, setupCalls, createVertexBuffer, createIndexBuffer,
      List.countP_cons, List.countP_append, isMatrixWrite, isFloatWrite, isMeshRender,
      isDrawElements, isDrawCall, isPresent, isRelease, isDeleteBuffer, isDeleteVertexArray,
      isLog, h]

/-- The console entries of a whole run: the warning for `time` when that slot is
missing, and nothing else, whatever the other lookups return. -/
theorem main_log_count (m : Mock α) (n fuel : Nat) (hw : m.windowOpens = true)
    (hg : m.glewInitOk = true) (hrun : RunsExactly m n) (hfuel : n < fuel) :
    ∃ tr, main m fuel = some (tr, 0) ∧
      List.countP isLog tr = (if m.uniformLocation "time" = -1 then 1 else 0) ∧
      List.countP isPresent tr = n ∧ List.countP isDrawCall tr = 2 * n ∧
      (∀ loc, List.countP (isFloatWrite loc) tr =
        n * (if m.uniformLocation "time" = loc then 1 else 0)) ∧
      (∀ loc, List.countP (isMatrixWrite loc) tr =
        n * ((if m.uniformLocation "E" = loc then 1 else 0) +
          (if m.uniformLocation "OT" = loc then 1 else 0) +
          (if m.uniformLocation "R" = loc then 1 else 0))) := by
  refine ⟨_, main_eq m n fuel hw hg hrun hfuel, ?_, ?_, ?_, ?_, ?_⟩
  · simp only [List.countP_append, (countP_beforeLoop m 0 0).2.2.2.2.2.2.2.2.2,
      countP_loopTrace m isLog 0 (fun _ => rfl) (countP_frame_log m)]
    simp [shutdownCalls, List.countP_cons, isLog]
  · simp only [List.countP_append, (countP_beforeLoop m 0 0).2.2.2.2.2.1,
      countP_loopTrace m isPresent 1 (fun _ => rfl) (countP_frame_present m)]
    simp [shutdownCalls, List.countP_cons, isPresent]
  · simp only [List.countP_append, (countP_beforeLoop m 0 0).2.2.2.2.1,
      countP_loopTrace m isDrawCall 2 (fun _ => rfl) (countP_frame_drawCall m)]
    simp [shutdownCalls, List.countP_cons, isDrawCall, isMeshRender, isDrawElements,
      Nat.mul_comm]
  · intro loc
    simp only [List.countP_append, (countP_beforeLoop m loc 0).2.1,
      countP_loopTrace m (isFloatWrite loc) _ (fun _ => rfl)
        (fun i => countP_frame_floatWrite m loc i)]
    simp [shutdownCalls, List.countP_cons, isFloatWrite]
  · intro loc
    simp only [List.countP_append, (countP_beforeLoop m loc 0).1,
      countP_loopTrace m (isMatrixWrite loc) _ (fun _ => rfl)
        (fun i => countP_frame_matrixWrite m loc i)]
    simp [shutdownCalls, List.countP_cons, isMatrixWrite]

/-- The matrix writes, draws and releases of a whole run: when setup succeeds, the
shader gives the slots `E`, `OT`, `R` distinct locations, `glGenBuffers` gives
distinct names, and the loop runs exactly `n` iterations, `main` returns (given
more than `n` tests of the loop condition) with exit status 0 and a trace that has
exactly `n` matrix writes to each of `E`, `OT`, `R`, exactly `n` mesh render calls
and exactly `n` direct `glDrawElements` calls (`2 * n` draw calls in all), and that
ends, after the loop, with the release of the vertex array and of the vertex,
index and colour buffer, each released exactly once in the whole trace. -/
theorem main_trace_counts (m : Mock α) (n fuel : Nat)
    (hw : m.windowOpens = true) (hg : m.glewInitOk = true)
    (hrun : RunsExactly m n) (hfuel : n < fuel)
    (hEOT : m.uniformLocation "E" ≠ m.uniformLocation "OT")
    (hER : m.uniformLocation "E" ≠ m.uniformLocation "R")
    (hOTR : m.uniformLocation "OT" ≠ m.uniformLocation "R")
    (hb01 : m.genBuffer 0 ≠ m.genBuffer 1) (hb02 : m.genBuffer 0 ≠ m.genBuffer 2)
    (hb12 : m.genBuffer 1 ≠ m.genBuffer 2) :
    ∃ tr pre, main m fuel = some (tr, 0) ∧
      tr = pre ++ [glDeleteVertexArrays m.genVertexArray, glDeleteBuffers (m.genBuffer 0),
        glDeleteBuffers (m.genBuffer 2), glDeleteBuffers (m.genBuffer 1),
        glfwDestroyWindow, glfwTerminate] ∧
      List.countP isRelease pre = 0 ∧
      List.countP (isMatrixWrite (m.uniformLocation "E")) tr = n ∧
      List.countP (isMatrixWrite (m.uniformLocation "OT")) tr = n ∧
      List.countP (isMatrixWrite (m.uniformLocation "R")) tr = n ∧
      List.countP isMeshRender tr = n ∧
      List.countP isDrawElements tr = n ∧
      List.countP isDrawCall tr = 2 * n ∧
      List.countP (isDeleteVertexArray m.genVertexArray) tr = 1 ∧
      List.countP (isDeleteBuffer (m.genBuffer 0)) tr = 1 ∧
      List.countP (isDeleteBuffer (m.genBuffer 1)) tr = 1 ∧
      List.countP (isDeleteBuffer (m.genBuffer 2)) tr = 1 := by
  refine ⟨_, _, main_eq m n fuel hw hg hrun hfuel, rfl, ?_, ?_, ?_, ?_, ?_, ?_, ?_, ?_, ?_, ?_, ?_⟩
  · simp only [List.countP_append, (countP_beforeLoop m 0 0).2.2.2.2.2.2.1,
      countP_loopTrace m isRelease 0 (fun _ => rfl) (countP_frame_release m)]
    simp
  · simp only [List.countP_append, (countP_beforeLoop m _ 0).1,
      countP_loopTrace m (isMatrixWrite _) _ (fun _ => rfl)
        (fun i => countP_frame_matrixWrite m _ i)]
    simp [shutdownCalls, List.countP_cons, isMatrixWrite, hEOT.symm, hER.symm]
  · simp only [List.countP_append, (countP_beforeLoop m _ 0).1,
      countP_loopTrace m (isMatrixWrite _) _ (fun _ => rfl)
        (fun i => countP_frame_matrixWrite m _ i)]
    simp [shutdownCalls, List.countP_cons, isMatrixWrite, hEOT, hOTR.symm]
  · simp only [List.countP_append, (countP_beforeLoop m _ 0).1,
      countP_loopTrace m (isMatrixWrite _) _ (fun _ => rfl)
        (fun i => countP_frame_matrixWrite m _ i)]
    simp [shutdownCalls, List.countP_cons, isMatrixWrite, hER, hOTR]
  · simp only [List.countP_append, (countP_beforeLoop m 0 0).2.2.1,
      countP_loopTrace m isMeshRender 1 (fun _ => rfl) (countP_frame_meshRender m)]
    simp [shutdownCalls, List.countP_cons, isMeshRender]
  · simp only [List.countP_append, (countP_beforeLoop m 0 0).2.2.2.1,
      countP_loopTrace m isDrawElements 1 (fun _ => rfl) (countP_frame_drawElements m)]
    simp [shutdownCalls, List.countP_cons, isDrawElements]
  · simp only [List.countP_append, (countP_beforeLoop m 0 0).2.2.2.2.1,
      countP_loopTrace m isDrawCall 2 (fun _ => rfl) (countP_frame_drawCall m)]
    simp [shutdownCalls, List.countP_cons, isDrawCall, isMeshRender, isDrawElements,
      Nat.mul_comm]
  · simp only [List.countP_append, (countP_beforeLoop m 0 _).2.2.2.2.2.2.2.2.1,
      countP_loopTrace m (isDeleteVertexArray _) 0 (fun _ => rfl)
        (fun i => countP_frame_deleteVertexArray m _ i)]
    simp [shutdownCalls, List.countP_cons, isDeleteVertexArray]
  · simp only [List.countP_append, (countP_beforeLoop m 0 _).2.2.2.2.2.2.2.1,
      countP_loopTrace m (isDeleteBuffer _) 0 (fun _ => rfl)
        (fun i => countP_frame_deleteBuffer m _ i)]
    simp [shutdownCalls, List.countP_cons, isDeleteBuffer, hb01.symm, hb02.symm]
  · simp only [List.countP_append, (countP_beforeLoop m 0 _).2.2.2.2.2.2.2.1,
      countP_loopTrace m (isDeleteBuffer _) 0 (fun _ => rfl)
        (fun i => countP_frame_deleteBuffer m _ i)]
    simp [shutdownCalls, List.countP_cons, isDeleteBuffer, hb01, hb12.symm]
  · simp only [List.countP_append, (countP_beforeLoop m 0 _).2.2.2.2.2.2.2.1,
      countP_loopTrace m (isDeleteBuffer _) 0 (fun _ => rfl)
        (fun i => countP_frame_deleteBuffer m _ i)]
    simp [shutdownCalls, List.countP_cons, isDeleteBuffer, hb02, hb12]

/-- The run of three iterations with times `t = 0, 1, 2` satisfies the hypotheses of
`main_trace_counts`. -/
theorem main_trace_counts_witness :
    (mockThreeFrames.windowOpens = true ∧ mockThreeFrames.glewInitOk = true ∧
      RunsExactly mockThreeFrames 3 ∧
      mockThreeFrames.uniformLocation "E" ≠ mockThreeFrames.uniformLocation "OT" ∧
      mockThreeFrames.uniformLocation "E" ≠ mockThreeFrames.uniformLocation "R" ∧
      mockThreeFrames.uniformLocation "OT" ≠ mockThreeFrames.uniformLocation "R" ∧
      mockThreeFrames.genBuffer 0 ≠ mockThreeFrames.genBuffer 1 ∧
      mockThreeFrames.genBuffer 0 ≠ mockThreeFrames.genBuffer 2 ∧
      mockThreeFrames.genBuffer 1 ≠ mockThreeFrames.genBuffer 2) ∧
    ∃ tr pre, main mockThreeFrames 4 = some (tr, 0) ∧
      tr = pre ++ [glDeleteVertexArrays mockThreeFrames.genVertexArray, glDeleteBuffers (mockThreeFrames.genBuffer 0),
        glDeleteBuffers (mockThreeFrames.genBuffer 2), glDeleteBuffers (mockThreeFrames.genBuffer 1),
        glfwDestroyWindow, glfwTerminate] ∧
      List.countP isRelease pre = 0 ∧
      List.countP (isMatrixWrite (mockThreeFrames.uniformLocation "E")) tr = 3 ∧
      List.countP (isMatrixWrite (mockThreeFrames.uniformLocation "OT")) tr = 3 ∧
      List.countP (isMatrixWrite (mockThreeFrames.uniformLocation "R")) tr = 3 ∧
      List.countP isMeshRender tr = 3 ∧
      List.countP isDrawElements tr = 3 ∧
      List.countP isDrawCall tr = 2 * 3 ∧
      List.countP (isDeleteVertexArray mockThreeFrames.genVertexArray) tr = 1 ∧
      List.countP (isDeleteBuffer (mockThreeFrames.genBuffer 0)) tr = 1 ∧
      List.countP (isDeleteBuffer (mockThreeFrames.genBuffer 1)) tr = 1 ∧
      List.countP (isDeleteBuffer (mockThreeFrames.genBuffer 2)) tr = 1 :=
  ⟨by decide,
    main_trace_counts mockThreeFrames 3 4 (by decide) (by decide) (by decide) (by decide)
      (by decide) (by decide) (by decide) (by decide) (by decide) (by decide)⟩

/-- C8 (evaluation of the code at three iterations, times `t = 0, 1, 2`): the trace
has six draw calls, not three: each frame makes the mesh render call (386) and
then a direct `glDrawElements` of 36 indices (395) from the vertex array whose
vertex and index data are empty (171-223). -/
theorem three_frames_six_draw_calls :
    RunsExactly mockThreeFrames 3 ∧
    (main mockThreeFrames 4).map (fun r => List.countP isDrawCall r.1) = some 6 ∧
    (main mockThreeFrames 4).map (fun r => List.countP isMeshRender r.1) = some 3 ∧
    (main mockThreeFrames 4).map (fun r => List.countP isDrawElements r.1) = some 3 ∧
    ¬ (main mockThreeFrames 4).map (fun r => List.countP isDrawCall r.1) = some 3 := by
  decide

/-- C9 (evaluation of the code with slot `E` missing): the lookup of `E` returns `-1`
in each of the three frames, the run completes with exit status 0, every frame
still makes its three matrix writes, its scalar write, its draws and its present,
and no entry at all is written to the console: there is no warning for `E`. -/
theorem missing_E_logs_nothing :
    mockMissingE.uniformLocation "E" = -1 ∧ RunsExactly mockMissingE 3 ∧
    (main mockMissingE 4).map (fun r => r.2) = some 0 ∧
    (main mockMissingE 4).map (fun r => List.countP isLog r.1) = some 0 ∧
    (main mockMissingE 4).map (fun r => List.countP (isMatrixWrite (-1)) r.1) = some 3 ∧
    (main mockMissingE 4).map (fun r => List.countP (isMatrixWrite 2) r.1) = some 3 ∧
    (main mockMissingE 4).map (fun r => List.countP (isMatrixWrite 3) r.1) = some 3 ∧
    (main mockMissingE 4).map (fun r => List.countP (isFloatWrite 0) r.1) = some 3 ∧
    (main mockMissingE 4).map (fun r => List.countP isDrawCall r.1) = some 6 ∧
    (main mockMissingE 4).map (fun r => List.countP isPresent r.1) = some 3 := by
  decide

end LoopTheorems

end GLprimer
